import Mathlib

/-! Hardware composer orchestration (libhwcomposer/hwc.cpp)

A shallow embedding of the entry points of `hwc.cpp`: `hwc_prepare`, `hwc_set`,
`hwc_eventControl`, `hwc_blank` and `hwc_getDisplayAttributes`, with the
helpers `reset`, `reset_layer_prop` and the per-display prepare / set functions.

Conventions of the embedding.

* The device context is passed explicitly and returned.
* Code that lives in other translation units (MDPComp, VideoOverlay, FBUpdate,
  the layer cache, the overlay object, the framebuffer device, the external
  display, `ioctl`, `setListStats`, `hwc_sync`) is represented by the value it
  returns, taken from a record of functions of the current context, and by an
  event appended to `hwc_context_t.trace` when it is called.  Because the
  trace is part of the context, a returned value may depend on the whole
  history of calls.  What such code writes into the layers it is handed lies
  outside this file.
* C arrays indexed by a display number are total functions on `Nat`; the
  `displays` argument is a function as well, a null pointer being `none`.
* Locks are not modelled: every entry point runs under `mBlankLock` (or the
  vsync mutex) from its first statement to its return.
-/

namespace qhwc

/-! ## Constants of the platform headers

The enumerators below are declared in headers of the platform
(hwcomposer_defs.h, errno.h, linux/fb.h) that are not part of the sources;
each one carries the value it has there. -/

/-- Modelled from the spec: the display slot of the primary panel;
the declaration is in a platform header that is missing from the sources. -/
def HWC_DISPLAY_PRIMARY : Nat := 0

/-- Modelled from the spec: the display slot of the external display;
the declaration is in a platform header that is missing from the sources. -/
def HWC_DISPLAY_EXTERNAL : Nat := 1

/-- Modelled from the spec: the number of display slots, primary and external;
the declaration is in a platform header that is missing from the sources. -/
def HWC_NUM_DISPLAY_TYPES : Nat := 2

/-- Modelled from the spec: the default (GPU) composition hint of a layer;
the declaration is in a platform header that is missing from the sources. -/
def HWC_FRAMEBUFFER : Int := 0

/-- Modelled from the spec: the overlay composition hint of a layer;
the declaration is in a platform header that is missing from the sources. -/
def HWC_OVERLAY : Int := 1

/-- Modelled from the spec: the marker of the final target layer;
the declaration is in a platform header that is missing from the sources. -/
def HWC_FRAMEBUFFER_TARGET : Int := 3

/-- Modelled from the spec: the skip-composition flag bit of a layer;
the declaration is in a platform header that is missing from the sources. -/
def HWC_SKIP_LAYER : Nat := 1

/-- Modelled from the spec: the vsync event kind;
the declaration is in a platform header that is missing from the sources. -/
def HWC_EVENT_VSYNC : Int := 0

/-- Modelled from the spec: the errno value behind the unsupported-display,
unsupported-event and unsupported-attribute errors;
the declaration is in a platform header that is missing from the sources. -/
def EINVAL : Int := 22

/-- Modelled from the spec: the sentinel terminator of an attribute list;
the declaration is in a platform header that is missing from the sources. -/
def HWC_DISPLAY_NO_ATTRIBUTE : Nat := 0

/-- Modelled from the spec: the attribute identifier of the vsync period;
the declaration is in a platform header that is missing from the sources. -/
def HWC_DISPLAY_VSYNC_PERIOD : Nat := 1

/-- Modelled from the spec: the attribute identifier of the width;
the declaration is in a platform header that is missing from the sources. -/
def HWC_DISPLAY_WIDTH : Nat := 2

/-- Modelled from the spec: the attribute identifier of the height;
the declaration is in a platform header that is missing from the sources. -/
def HWC_DISPLAY_HEIGHT : Nat := 3

/-- Modelled from the spec: the attribute identifier of the horizontal dpi;
the declaration is in a platform header that is missing from the sources. -/
def HWC_DISPLAY_DPI_X : Nat := 4

/-- Modelled from the spec: the attribute identifier of the vertical dpi;
the declaration is in a platform header that is missing from the sources. -/
def HWC_DISPLAY_DPI_Y : Nat := 5

/-- Modelled from the spec: the `FBIOBLANK` argument of a power-down request;
the declaration is in a platform header that is missing from the sources. -/
def FB_BLANK_POWERDOWN : Int := 4

/-- Modelled from the spec: the `FBIOBLANK` argument of a power-up request;
the declaration is in a platform header that is missing from the sources. -/
def FB_BLANK_UNBLANK : Int := 0

/-! ## Data model -/

/-- Conversion of an unsigned machine word to `int32_t`. -/
def toInt32 (n : Nat) : Int :=
  if n % 2 ^ 32 < 2 ^ 31 then ((n % 2 ^ 32 : Nat) : Int)
  else ((n % 2 ^ 32 : Nat) : Int) - 2 ^ 32

/-- Modelled from the spec: the fields of a layer that `hwc.cpp` reads or
writes; `handle` is the buffer pointer, `0` being the null pointer. -/
structure hwc_layer_1_t where
  compositionType : Int
  flags : Nat
  handle : Nat
deriving DecidableEq, Repr, Inhabited

/-- Modelled from the spec: a layer list; `numHwLayers` is the length of
`hwLayers`. -/
structure hwc_display_contents_1_t where
  hwLayers : List hwc_layer_1_t
deriving DecidableEq, Repr, Inhabited

/-- The layer count of a list. -/
def hwc_display_contents_1_t.numHwLayers (l : hwc_display_contents_1_t) : Nat :=
  l.hwLayers.length

/-- Modelled from the spec: per-display, per-frame statistics (declared in
hwc_utils.h, which is not part of the sources). -/
structure ListStats where
  numAppLayers : Nat
  yuvIndex : Int
deriving DecidableEq, Repr, Inhabited

/-- Modelled from the spec: one entry of the per-layer classification array
(declared in hwc_utils.h); a freshly constructed entry has no flag set. -/
structure LayerProp where
  mFlags : Nat
deriving DecidableEq, Repr

instance : Inhabited LayerProp := ⟨⟨0⟩⟩

/-- Modelled from the spec: the attributes of a display slot (declared in
hwc_utils.h).  `xdpi` and `ydpi` are the bit patterns of the C `float`s. -/
structure DisplayAttributes where
  isActive : Bool
  connected : Bool
  xres : Nat
  yres : Nat
  xdpi : Nat
  ydpi : Nat
  vsync_period : Nat
deriving DecidableEq, Repr, Inhabited

/-- Calls that leave `hwc.cpp`, and the dispatch of `hwc_prepare` / `hwc_set`
to a per-display function, in the order in which they happen. -/
inductive Event where
  | VideoOverlay_reset
  | FBUpdate_reset
  | configBegin
  | configDone
  | hwc_prepare_primary
  | hwc_prepare_external
  | setListStats (dpy : Nat)
  | MDPComp_configure
  | VideoOverlay_prepare (dpy : Nat)
  | FBUpdate_prepare (dpy : Nat)
  | updateLayerCache (dpy : Nat)
  | hwc_set_primary
  | hwc_set_external
  | hwc_sync (dpy : Nat)
  | VideoOverlay_draw (dpy : Nat)
  | MDPComp_draw
  | FBUpdate_draw (dpy : Nat)
  | mFbDev_post
  | mExtDisplay_post
  | ioctl_FBIOBLANK (arg : Int)
  | setHPD (v : Int)
  | cond_signal
deriving DecidableEq, Repr

/-- Modelled from the spec: the fields of the device context that `hwc.cpp`
uses (declared in hwc_utils.h), together with the trace of events. -/
structure hwc_context_t where
  listStats : Nat → ListStats
  layerProp : Nat → Option (List LayerProp)
  dpyAttr : Nat → DisplayAttributes
  isHPDEnabled : Bool
  vstate_enable : Bool
  trace : List Event

/-- The array of layer-list pointers handed to `hwc_prepare` / `hwc_set`. -/
abbrev Displays := Nat → Option hwc_display_contents_1_t

/-- Values returned by the code outside `hwc.cpp`, as functions of the context
at the moment of the call (and of the arguments the call receives). -/
structure Collaborators where
  setListStats : hwc_context_t → hwc_display_contents_1_t → Nat → ListStats
  MDPComp_configure : hwc_context_t → hwc_display_contents_1_t → Bool
  VideoOverlay_draw : hwc_context_t → hwc_display_contents_1_t → Nat → Bool
  MDPComp_draw : hwc_context_t → hwc_display_contents_1_t → Bool
  FBUpdate_draw : hwc_context_t → hwc_layer_1_t → Nat → Bool
  mFbDev_post : hwc_context_t → Nat → Int
  mExtDisplay_post : hwc_context_t → Bool
  ioctl_FBIOBLANK : hwc_context_t → Int → Int

/-- Assignment to one slot of an array. -/
def setAt {α : Type} (f : Nat → α) (i : Nat) (v : α) : Nat → α :=
  fun j => if j = i then v else f j

/-- Record a call in the trace. -/
def log (ctx : hwc_context_t) (e : Event) : hwc_context_t :=
  { ctx with trace := ctx.trace ++ [e] }

/-- The display a per-display collaborator call works for; `none` for the
calls that are not tied to one display and for the dispatch markers. -/
def Event.display : Event → Option Nat
  | .setListStats d => some d
  | .MDPComp_configure => some HWC_DISPLAY_PRIMARY
  | .VideoOverlay_prepare d => some d
  | .FBUpdate_prepare d => some d
  | .updateLayerCache d => some d
  | .hwc_sync d => some d
  | .VideoOverlay_draw d => some d
  | .MDPComp_draw => some HWC_DISPLAY_PRIMARY
  | .FBUpdate_draw d => some d
  | .mFbDev_post => some HWC_DISPLAY_PRIMARY
  | .mExtDisplay_post => some HWC_DISPLAY_EXTERNAL
  | _ => none

/-! ## hwc_eventControl -/

/-- The function `hwc_eventControl`: `vstate.enable` (declared in hwc_utils.h)
is a `bool`, promoted to `int` for the comparison with `enabled`; the value
stored is the normalised `!!enabled`. -/
def hwc_eventControl (ctx : hwc_context_t) (_dpy : Int) (event : Int)
    (enabled : Int) : hwc_context_t × Int :=
  if event = HWC_EVENT_VSYNC then
    if (if ctx.vstate_enable then (1 : Int) else 0) = enabled then
      (ctx, 0)
    else
      (log { ctx with vstate_enable := decide (enabled ≠ 0) } Event.cond_signal, 0)
  else
    (ctx, -EINVAL)

/-! ## hwc_blank -/

/-- The function `hwc_blank`. -/
def hwc_blank (c : Collaborators) (ctx : hwc_context_t) (dpy : Int)
    (blank : Int) : hwc_context_t × Int :=
  -- switch(dpy)
  let sw : Option (hwc_context_t × Int) :=
    if dpy = (HWC_DISPLAY_PRIMARY : Int) then
      if blank ≠ 0 then
        let ctx1 := log (log ctx Event.configBegin) Event.configDone
        some (log ctx1 (Event.ioctl_FBIOBLANK FB_BLANK_POWERDOWN),
              c.ioctl_FBIOBLANK ctx1 FB_BLANK_POWERDOWN)
      else
        some (log ctx (Event.ioctl_FBIOBLANK FB_BLANK_UNBLANK),
              c.ioctl_FBIOBLANK ctx FB_BLANK_UNBLANK)
    else if dpy = (HWC_DISPLAY_EXTERNAL : Int) then
      if blank ≠ 0 then
        some (log ctx Event.mExtDisplay_post,
              if !(c.mExtDisplay_post ctx) then -1 else 0)
      else
        some (ctx, 0)
    else
      none
  match sw with
  | none => (ctx, -EINVAL)
  | some (ctx1, ret) =>
    -- Enable HPD only once
    let ctx2 :=
      if !ctx1.isHPDEnabled then
        { log ctx1 (Event.setHPD 1) with isHPDEnabled := true }
      else ctx1
    if ret < 0 then
      (ctx2, ret)
    else
      ({ ctx2 with
          dpyAttr := setAt ctx2.dpyAttr dpy.toNat
            { ctx2.dpyAttr dpy.toNat with isActive := decide (blank = 0) } }, 0)

/-- Run `hwc_blank` over a sequence of `(dpy, blank)` requests. -/
def blankSeq (c : Collaborators) (ctx : hwc_context_t) :
    List (Int × Int) → hwc_context_t
  | [] => ctx
  | (dpy, blank) :: rest => blankSeq c (hwc_blank c ctx dpy blank).1 rest

/-- Whether `hwc_blank` knows the display: the two `case` labels of its
`switch`. -/
def blankSupported (dpy : Int) : Bool :=
  dpy == (HWC_DISPLAY_PRIMARY : Int) || dpy == (HWC_DISPLAY_EXTERNAL : Int)

/-! ## reset and reset_layer_prop -/

/-- Body of the inner loop of `reset` for one layer. -/
def resetLayer (l : hwc_layer_1_t) : hwc_layer_1_t :=
  if l.compositionType ≠ HWC_FRAMEBUFFER_TARGET then
    { l with compositionType := HWC_FRAMEBUFFER }
  else l

/-- What `reset` does to one entry of `displays`. -/
def resetList : Option hwc_display_contents_1_t → Option hwc_display_contents_1_t
  | some list =>
    if list.numHwLayers > 1 then some { hwLayers := list.hwLayers.map resetLayer }
    else some list
  | none => none

/-- One iteration of the outer loop of `reset`. -/
def resetStep (s : hwc_context_t × Displays) (i : Nat) : hwc_context_t × Displays :=
  ({ s.1 with
      listStats := setAt s.1.listStats i { s.1.listStats i with yuvIndex := -1 } },
   setAt s.2 i (resetList (s.2 i)))

/-- The helper `reset`: the `memset` of `listStats` (an array of
`HWC_NUM_DISPLAY_TYPES` entries), the loop over the display slots, and the two
collaborator resets.  The loop reads `displays[i]` for every slot, whatever
`numDisplays` is. -/
def reset (ctx : hwc_context_t) (_numDisplays : Nat) (displays : Displays) :
    hwc_context_t × Displays :=
  let ctx0 : hwc_context_t :=
    { ctx with
        listStats := fun i =>
          if i < HWC_NUM_DISPLAY_TYPES then { numAppLayers := 0, yuvIndex := 0 }
          else ctx.listStats i }
  let s := (List.range HWC_NUM_DISPLAY_TYPES).foldl resetStep (ctx0, displays)
  (log (log s.1 Event.VideoOverlay_reset) Event.FBUpdate_reset, s.2)

/-- The helper `reset_layer_prop`.  The count is read into an `int`; layer
counts are taken in the range of that type. -/
def reset_layer_prop (ctx : hwc_context_t) (dpy : Nat) : hwc_context_t :=
  let layer_count := (ctx.listStats dpy).numAppLayers
  let ctx1 : hwc_context_t :=
    if (ctx.layerProp dpy).isSome then
      { ctx with layerProp := setAt ctx.layerProp dpy none }
    else ctx
  if layer_count ≠ 0 then
    { ctx1 with
        layerProp := setAt ctx1.layerProp dpy
          (some (List.replicate layer_count default)) }
  else ctx1

/-- The call `setListStats(ctx, list, dpy)`, which fills `listStats[dpy]`. -/
def setListStats (c : Collaborators) (ctx : hwc_context_t)
    (list : hwc_display_contents_1_t) (dpy : Nat) : hwc_context_t :=
  log { ctx with listStats := setAt ctx.listStats dpy (c.setListStats ctx list dpy) }
    (Event.setListStats dpy)

/-! ## hwc_prepare -/

/-- The function `hwc_prepare_primary`. -/
def hwc_prepare_primary (c : Collaborators) (ctx : hwc_context_t)
    (list : Option hwc_display_contents_1_t) : hwc_context_t × Int :=
  match list with
  | some l =>
    if l.numHwLayers > 0 ∧ (ctx.dpyAttr HWC_DISPLAY_PRIMARY).isActive = true then
      let last := l.numHwLayers - 1
      let fbLayer := l.hwLayers.getD last default
      if fbLayer.handle ≠ 0 then
        let ctx1 := setListStats c ctx l HWC_DISPLAY_PRIMARY
        let ctx2 := reset_layer_prop ctx1 HWC_DISPLAY_PRIMARY
        let ctx3 := log ctx2 Event.MDPComp_configure
        let ctx4 :=
          if !(c.MDPComp_configure ctx2 l) then
            log (log ctx3 (Event.VideoOverlay_prepare HWC_DISPLAY_PRIMARY))
              (Event.FBUpdate_prepare HWC_DISPLAY_PRIMARY)
          else ctx3
        (log ctx4 (Event.updateLayerCache HWC_DISPLAY_PRIMARY), 0)
      else (ctx, 0)
    else (ctx, 0)
  | none => (ctx, 0)

/-- The function `hwc_prepare_external`. -/
def hwc_prepare_external (c : Collaborators) (ctx : hwc_context_t)
    (list : Option hwc_display_contents_1_t) : hwc_context_t × Int :=
  match list with
  | some l =>
    if l.numHwLayers > 1 ∧ (ctx.dpyAttr HWC_DISPLAY_EXTERNAL).isActive = true ∧
        (ctx.dpyAttr HWC_DISPLAY_EXTERNAL).connected = true then
      let last := l.numHwLayers - 1
      let fbLayer := l.hwLayers.getD last default
      if fbLayer.handle ≠ 0 then
        let ctx1 := setListStats c ctx l HWC_DISPLAY_EXTERNAL
        let ctx2 := reset_layer_prop ctx1 HWC_DISPLAY_EXTERNAL
        let ctx3 := log (log ctx2 (Event.VideoOverlay_prepare HWC_DISPLAY_EXTERNAL))
          (Event.FBUpdate_prepare HWC_DISPLAY_EXTERNAL)
        (log ctx3 (Event.updateLayerCache HWC_DISPLAY_EXTERNAL), 0)
      else (ctx, 0)
    else (ctx, 0)
  | none => (ctx, 0)

/-- Body of the loop of `hwc_prepare` for the index `i`: the `switch`. -/
def prepareBody (c : Collaborators) (displays : Displays) (i : Nat)
    (s : hwc_context_t × Int) : hwc_context_t × Int :=
  let list := displays i
  if i = HWC_DISPLAY_PRIMARY then
    hwc_prepare_primary c (log s.1 Event.hwc_prepare_primary) list
  else if i = HWC_DISPLAY_EXTERNAL then
    hwc_prepare_external c (log s.1 Event.hwc_prepare_external) list
  else (s.1, -EINVAL)

/-- The loop `for (i = k - 1; i >= 0; i--)` of `hwc_prepare`. -/
def prepareLoop (c : Collaborators) (displays : Displays) :
    Nat → hwc_context_t × Int → hwc_context_t × Int
  | 0, s => s
  | k + 1, s => prepareLoop c displays k (prepareBody c displays k s)

/-- Number of iterations of the loop of `hwc_prepare`: the counter starts at
`numDisplays - 1`, computed in `size_t` (where `0 - 1` wraps to the all-ones
word) and converted to `int32_t`; the loop runs while the counter is not
negative. -/
def prepareIterations (numDisplays : Nat) : Nat :=
  (toInt32 (if numDisplays = 0 then 2 ^ 32 - 1 else numDisplays - 1) + 1).toNat

/-- The function `hwc_prepare`; returns the context, the layer lists as `reset`
leaves them, and the return value. -/
def hwc_prepare (c : Collaborators) (ctx : hwc_context_t) (numDisplays : Nat)
    (displays : Displays) : hwc_context_t × Displays × Int :=
  let r := reset ctx numDisplays displays
  let ctx1 := log r.1 Event.configBegin
  let s := prepareLoop c r.2 (prepareIterations numDisplays) (ctx1, 0)
  (log s.1 Event.configDone, r.2, s.2)

/-! ## hwc_set -/

/-- The function `hwc_set_primary`. -/
def hwc_set_primary (c : Collaborators) (ctx : hwc_context_t)
    (list : Option hwc_display_contents_1_t) : hwc_context_t × Int :=
  match list with
  | some l =>
    if l.numHwLayers > 1 ∧ (ctx.dpyAttr HWC_DISPLAY_PRIMARY).isActive = true then
      let last := l.numHwLayers - 1
      let fbLayer := l.hwLayers.getD last default
      let ctx1 := log ctx (Event.hwc_sync HWC_DISPLAY_PRIMARY)
      let ret1 : Int := if !(c.VideoOverlay_draw ctx1 l HWC_DISPLAY_PRIMARY) then -1 else 0
      let ctx2 := log ctx1 (Event.VideoOverlay_draw HWC_DISPLAY_PRIMARY)
      let ret2 : Int := if !(c.MDPComp_draw ctx2 l) then -1 else ret1
      let ctx3 := log ctx2 Event.MDPComp_draw
      if fbLayer.compositionType = HWC_FRAMEBUFFER_TARGET ∧ fbLayer.handle ≠ 0 then
        let s4 : hwc_context_t × Int :=
          if fbLayer.flags &&& HWC_SKIP_LAYER = 0 then
            (log ctx3 (Event.FBUpdate_draw HWC_DISPLAY_PRIMARY),
             if !(c.FBUpdate_draw ctx3 fbLayer HWC_DISPLAY_PRIMARY) then -1 else ret2)
          else (ctx3, ret2)
        if c.mFbDev_post s4.1 fbLayer.handle ≠ 0 then
          (log s4.1 Event.mFbDev_post, -1)
        else (log s4.1 Event.mFbDev_post, s4.2)
      else (ctx3, ret2)
    else (ctx, 0)
  | none => (ctx, 0)

/-- The function `hwc_set_external`. -/
def hwc_set_external (c : Collaborators) (ctx : hwc_context_t)
    (list : Option hwc_display_contents_1_t) : hwc_context_t × Int :=
  match list with
  | some l =>
    if l.numHwLayers > 1 ∧ (ctx.dpyAttr HWC_DISPLAY_EXTERNAL).isActive = true ∧
        (ctx.dpyAttr HWC_DISPLAY_EXTERNAL).connected = true then
      let last := l.numHwLayers - 1
      let fbLayer := l.hwLayers.getD last default
      let ctx1 := log ctx (Event.hwc_sync HWC_DISPLAY_EXTERNAL)
      let ret1 : Int := if !(c.VideoOverlay_draw ctx1 l HWC_DISPLAY_EXTERNAL) then -1 else 0
      let ctx2 := log ctx1 (Event.VideoOverlay_draw HWC_DISPLAY_EXTERNAL)
      let s3 : hwc_context_t × Int :=
        if fbLayer.compositionType = HWC_FRAMEBUFFER_TARGET ∧
            fbLayer.flags &&& HWC_SKIP_LAYER = 0 ∧ fbLayer.handle ≠ 0 then
          (log ctx2 (Event.FBUpdate_draw HWC_DISPLAY_EXTERNAL),
           if !(c.FBUpdate_draw ctx2 fbLayer HWC_DISPLAY_EXTERNAL) then -1 else ret1)
        else (ctx2, ret1)
      if !(c.mExtDisplay_post s3.1) then
        (log s3.1 Event.mExtDisplay_post, -1)
      else (log s3.1 Event.mExtDisplay_post, s3.2)
    else (ctx, 0)
  | none => (ctx, 0)

/-- Body of the loop of `hwc_set` for the index `i`: the `switch`. -/
def setBody (c : Collaborators) (displays : Displays)
    (s : hwc_context_t × Int) (i : Nat) : hwc_context_t × Int :=
  let list := displays i
  if i = HWC_DISPLAY_PRIMARY then
    hwc_set_primary c (log s.1 Event.hwc_set_primary) list
  else if i = HWC_DISPLAY_EXTERNAL then
    hwc_set_external c (log s.1 Event.hwc_set_external) list
  else (s.1, -EINVAL)

/-- The function `hwc_set`.  The counter is a `uint32_t` compared with a
`size_t`, which has 32 bits on the targets of this module, so it runs over
every index below `numDisplays`. -/
def hwc_set (c : Collaborators) (ctx : hwc_context_t) (numDisplays : Nat)
    (displays : Displays) : hwc_context_t × Int :=
  (List.range numDisplays).foldl (setBody c displays) (ctx, 0)

/-! ## hwc_getDisplayAttributes -/

/-- The table `DISPLAY_ATTRIBUTES` of `hwc_getDisplayAttributes`. -/
def DISPLAY_ATTRIBUTES : List Nat :=
  [HWC_DISPLAY_VSYNC_PERIOD, HWC_DISPLAY_WIDTH, HWC_DISPLAY_HEIGHT,
   HWC_DISPLAY_DPI_X, HWC_DISPLAY_DPI_Y, HWC_DISPLAY_NO_ATTRIBUTE]

/-- The constant `NUM_DISPLAY_ATTRIBUTES`: the size of the table divided by
the size of its first element. -/
def NUM_DISPLAY_ATTRIBUTES : Nat :=
  (4 * DISPLAY_ATTRIBUTES.length) / 4

/-- The `switch` of `hwc_getDisplayAttributes`: the value stored for a
recognized identifier, `none` for the `default` branch.  `dpi1000` is the
floating-point computation `(int32_t)(x * 1000.0)` on the bit pattern of a
`float`, taken as a parameter. -/
def attributeValue (dpi1000 : Nat → Int) (a : DisplayAttributes) (ident : Nat) :
    Option Int :=
  if ident = HWC_DISPLAY_VSYNC_PERIOD then some (toInt32 a.vsync_period)
  else if ident = HWC_DISPLAY_WIDTH then some (toInt32 a.xres)
  else if ident = HWC_DISPLAY_HEIGHT then some (toInt32 a.yres)
  else if ident = HWC_DISPLAY_DPI_X then some (dpi1000 a.xdpi)
  else if ident = HWC_DISPLAY_DPI_Y then some (dpi1000 a.ydpi)
  else none

/-- The loop of `hwc_getDisplayAttributes` from index `i` with `n` iterations
left; the `default` branch returns at once. -/
def attributesLoop (dpi1000 : Nat → Int) (a : DisplayAttributes)
    (attributes : Nat → Nat) : Nat → Nat → (Nat → Int) → (Nat → Int) × Int
  | 0, _, values => (values, 0)
  | n + 1, i, values =>
    match attributeValue dpi1000 a (attributes i) with
    | some v => attributesLoop dpi1000 a attributes n (i + 1) (setAt values i v)
    | none => (values, -EINVAL)

/-- The function `hwc_getDisplayAttributes`; returns the `values` array and
the return value. -/
def hwc_getDisplayAttributes (dpi1000 : Nat → Int) (ctx : hwc_context_t)
    (disp : Nat) (_config : Nat) (attributes : Nat → Nat) (values : Nat → Int) :
    (Nat → Int) × Int :=
  if disp = HWC_DISPLAY_EXTERNAL ∧ (ctx.dpyAttr disp).connected = false then
    (values, -1)
  else
    attributesLoop dpi1000 (ctx.dpyAttr disp) attributes
      (NUM_DISPLAY_ATTRIBUTES - 1) 0 values

/-! ## Observations used in the statements -/

/-- Length of the `layerProp[dpy]` array, 0 for the null pointer. -/
def layerPropLen (ctx : hwc_context_t) (dpy : Nat) : Nat :=
  match ctx.layerProp dpy with
  | some a => a.length
  | none => 0

/-- The guard under which `hwc_prepare_primary` recomputes the statistics and
the layer properties: a non-null list with at least one layer, an active
primary display, and a target layer with a buffer. -/
def primaryPrepared (ctx : hwc_context_t) : Option hwc_display_contents_1_t → Prop
  | some l =>
    l.numHwLayers > 0 ∧ (ctx.dpyAttr HWC_DISPLAY_PRIMARY).isActive = true ∧
      (l.hwLayers.getD (l.numHwLayers - 1) default).handle ≠ 0
  | none => False

/-- The guard under which `hwc_prepare_external` recomputes the statistics and
the layer properties: a non-null list with more than one layer, an active and
connected external display, and a target layer with a buffer. -/
def externalPrepared (ctx : hwc_context_t) : Option hwc_display_contents_1_t → Prop
  | some l =>
    l.numHwLayers > 1 ∧ (ctx.dpyAttr HWC_DISPLAY_EXTERNAL).isActive = true ∧
      (ctx.dpyAttr HWC_DISPLAY_EXTERNAL).connected = true ∧
      (l.hwLayers.getD (l.numHwLayers - 1) default).handle ≠ 0
  | none => False

instance primaryPreparedDecidable (ctx : hwc_context_t) :
    (list : Option hwc_display_contents_1_t) → Decidable (primaryPrepared ctx list)
  | some l =>
    inferInstanceAs (Decidable
      (l.numHwLayers > 0 ∧ (ctx.dpyAttr HWC_DISPLAY_PRIMARY).isActive = true ∧
        (l.hwLayers.getD (l.numHwLayers - 1) default).handle ≠ 0))
  | none => inferInstanceAs (Decidable False)

instance externalPreparedDecidable (ctx : hwc_context_t) :
    (list : Option hwc_display_contents_1_t) → Decidable (externalPrepared ctx list)
  | some l =>
    inferInstanceAs (Decidable
      (l.numHwLayers > 1 ∧ (ctx.dpyAttr HWC_DISPLAY_EXTERNAL).isActive = true ∧
        (ctx.dpyAttr HWC_DISPLAY_EXTERNAL).connected = true ∧
        (l.hwLayers.getD (l.numHwLayers - 1) default).handle ≠ 0))
  | none => inferInstanceAs (Decidable False)

/-- Whether an event is a collaborator call working for display `dpy`. -/
def onDisplay (dpy : Nat) (e : Event) : Bool :=
  e.display == some dpy

/-! ## Sample inputs -/

/-- A two-slot context with both displays active and connected, no layer
properties allocated and an empty trace. -/
def ctxSample : hwc_context_t :=
  { listStats := fun _ => { numAppLayers := 0, yuvIndex := -1 }
    layerProp := fun _ => none
    dpyAttr := fun _ =>
      { isActive := true, connected := true, xres := 1280, yres := 720,
        xdpi := 0, ydpi := 0, vsync_period := 16666667 }
    isHPDEnabled := false
    vstate_enable := false
    trace := [] }

/-- Collaborators that all succeed; `setListStats` counts every layer but the
last one as an application layer. -/
def collabOk : Collaborators :=
  { setListStats := fun _ list _ => { numAppLayers := list.numHwLayers - 1, yuvIndex := -1 }
    MDPComp_configure := fun _ _ => false
    VideoOverlay_draw := fun _ _ _ => true
    MDPComp_draw := fun _ _ => true
    FBUpdate_draw := fun _ _ _ => true
    mFbDev_post := fun _ _ => 0
    mExtDisplay_post := fun _ => true
    ioctl_FBIOBLANK := fun _ _ => 0 }

/-- Collaborators whose draw steps and driver calls all fail. -/
def collabFail : Collaborators :=
  { collabOk with
    VideoOverlay_draw := fun _ _ _ => false
    MDPComp_draw := fun _ _ => false
    FBUpdate_draw := fun _ _ _ => false
    mFbDev_post := fun _ _ => -1
    mExtDisplay_post := fun _ => false
    ioctl_FBIOBLANK := fun _ _ => -1 }

/-- A list of an overlay-hinted application layer, a GPU-hinted one and the
target layer, all with buffers. -/
def listSample : hwc_display_contents_1_t :=
  { hwLayers :=
      [{ compositionType := HWC_OVERLAY, flags := 0, handle := 11 },
       { compositionType := HWC_FRAMEBUFFER, flags := 0, handle := 12 },
       { compositionType := HWC_FRAMEBUFFER_TARGET, flags := 0, handle := 13 }] }

/-- Both display slots carry `listSample`; further slots are null. -/
def displaysSample : Displays :=
  fun i => if i < 2 then some listSample else none

/-- Collaborators for which every step of the primary display fails while the
external display succeeds. -/
def collabPrimaryFail : Collaborators :=
  { collabOk with
    VideoOverlay_draw := fun _ _ dpy => decide (dpy ≠ HWC_DISPLAY_PRIMARY)
    MDPComp_draw := fun _ _ => false
    FBUpdate_draw := fun _ _ dpy => decide (dpy ≠ HWC_DISPLAY_PRIMARY)
    mFbDev_post := fun _ _ => -1 }

/-- The sample context with both displays blanked. -/
def ctxInactive : hwc_context_t :=
  { ctxSample with
    dpyAttr := fun _ =>
      { isActive := false, connected := true, xres := 1280, yres := 720,
        xdpi := 0, ydpi := 0, vsync_period := 16666667 } }

/-- The sample context after one `hwc_prepare` of the primary display. -/
def ctxAfterFrame : hwc_context_t :=
  (hwc_prepare collabOk ctxSample 1 displaysSample).1

/-- The context `ctxAfterFrame` after a successful blank of the primary
display. -/
def ctxAfterBlank : hwc_context_t :=
  (hwc_blank collabOk ctxAfterFrame 0 1).1

/-- The result of the driver step of `hwc_blank` for a supported display: the
value of the `FBIOBLANK` ioctl for the primary, and for the external `-1` when
blanking and `mExtDisplay->post()` fails, `0` otherwise. -/
def blankDriverResult (c : Collaborators) (ctx : hwc_context_t) (dpy : Int)
    (blank : Int) : Int :=
  if dpy = (HWC_DISPLAY_PRIMARY : Int) then
    if blank ≠ 0 then
      c.ioctl_FBIOBLANK (log (log ctx Event.configBegin) Event.configDone)
        FB_BLANK_POWERDOWN
    else c.ioctl_FBIOBLANK ctx FB_BLANK_UNBLANK
  else if blank ≠ 0 ∧ c.mExtDisplay_post ctx = false then -1 else 0

end qhwc

/-! # Theorems -/

namespace qhwc

/-! ## hwc_blank -/

/-- C1: for the primary and the external display and every blank flag,
`hwc_blank` returns the negative result of a failed driver step and leaves the
display attributes (so `isActive`) as they were; when the driver step does not
fail it returns 0 and `isActive` of the display becomes true exactly when
`blank` is 0. -/
theorem hwc_blank_result (c : Collaborators) (ctx : hwc_context_t) (dpy blank : Int)
    (hdpy : dpy = (HWC_DISPLAY_PRIMARY : Int) ∨ dpy = (HWC_DISPLAY_EXTERNAL : Int)) :
    (blankDriverResult c ctx dpy blank < 0 →
        (hwc_blank c ctx dpy blank).2 = blankDriverResult c ctx dpy blank ∧
        (hwc_blank c ctx dpy blank).2 < 0 ∧
        (hwc_blank c ctx dpy blank).1.dpyAttr = ctx.dpyAttr) ∧
    (¬ blankDriverResult c ctx dpy blank < 0 →
        (hwc_blank c ctx dpy blank).2 = 0 ∧
        (((hwc_blank c ctx dpy blank).1.dpyAttr dpy.toNat).isActive = true ↔ blank = 0)) := by
  rcases hdpy with h | h
  · subst h
    by_cases hb : blank = 0
    · subst hb
      by_cases hr : c.ioctl_FBIOBLANK ctx FB_BLANK_UNBLANK < 0
      · simp [hwc_blank, blankDriverResult, HWC_DISPLAY_PRIMARY, HWC_DISPLAY_EXTERNAL, log, hr]
        split <;> rfl
      · simp [hwc_blank, blankDriverResult, HWC_DISPLAY_PRIMARY, HWC_DISPLAY_EXTERNAL, log, hr,
          setAt]
    · by_cases hr : c.ioctl_FBIOBLANK (log (log ctx Event.configBegin) Event.configDone)
          FB_BLANK_POWERDOWN < 0
      · simp [hwc_blank, blankDriverResult, HWC_DISPLAY_PRIMARY, HWC_DISPLAY_EXTERNAL, hb, hr]
        split <;> rfl
      · simp [hwc_blank, blankDriverResult, HWC_DISPLAY_PRIMARY, HWC_DISPLAY_EXTERNAL, hb, hr,
          setAt]
  · subst h
    by_cases hb : blank = 0
    · subst hb
      simp [hwc_blank, blankDriverResult, HWC_DISPLAY_PRIMARY, HWC_DISPLAY_EXTERNAL, setAt]
    · by_cases hp : c.mExtDisplay_post ctx = true
      · simp [hwc_blank, blankDriverResult, HWC_DISPLAY_PRIMARY, HWC_DISPLAY_EXTERNAL, hb, hp,
          setAt]
      · simp at hp
        simp [hwc_blank, blankDriverResult, HWC_DISPLAY_PRIMARY, HWC_DISPLAY_EXTERNAL, hb, hp]
        split <;> rfl

/-- Witness of `hwc_blank_result`: blanking the primary display of the sample
context with a failing driver. -/
theorem hwc_blank_result_witness :
    ((0 : Int) = (HWC_DISPLAY_PRIMARY : Int) ∨ (0 : Int) = (HWC_DISPLAY_EXTERNAL : Int)) ∧
    ((blankDriverResult collabFail ctxSample 0 1 < 0 →
        (hwc_blank collabFail ctxSample 0 1).2 = blankDriverResult collabFail ctxSample 0 1 ∧
        (hwc_blank collabFail ctxSample 0 1).2 < 0 ∧
        (hwc_blank collabFail ctxSample 0 1).1.dpyAttr = ctxSample.dpyAttr) ∧
    (¬ blankDriverResult collabFail ctxSample 0 1 < 0 →
        (hwc_blank collabFail ctxSample 0 1).2 = 0 ∧
        (((hwc_blank collabFail ctxSample 0 1).1.dpyAttr (0 : Int).toNat).isActive = true ↔
          (1 : Int) = 0))) :=
  ⟨Or.inl (by decide), hwc_blank_result collabFail ctxSample 0 1 (Or.inl (by decide))⟩

/-! ## hwc_eventControl -/

/-- For a request of 0 or 1 a repeated `hwc_eventControl` call changes
nothing: no signal, same flag. -/
theorem hwc_eventControl_repeat_bool (ctx : hwc_context_t) (dpy enabled : Int)
    (h : enabled = 0 ∨ enabled = 1) :
    hwc_eventControl (hwc_eventControl ctx dpy HWC_EVENT_VSYNC enabled).1 dpy
        HWC_EVENT_VSYNC enabled =
      ((hwc_eventControl ctx dpy HWC_EVENT_VSYNC enabled).1, 0) := by
  rcases h with h | h <;> subst h <;> cases hv : ctx.vstate_enable <;>
    simp [hwc_eventControl, hv, log]

/-- C3: with `enabled = 2` the second of two consecutive vsync
`hwc_eventControl` calls signals the condition variable again (the flag, already
true, stays true), from every initial state. -/
theorem hwc_eventControl_repeat_two (ctx : hwc_context_t) (dpy : Int) :
    (hwc_eventControl (hwc_eventControl ctx dpy HWC_EVENT_VSYNC 2).1 dpy
        HWC_EVENT_VSYNC 2).1.trace =
      (hwc_eventControl ctx dpy HWC_EVENT_VSYNC 2).1.trace ++ [Event.cond_signal] ∧
    (hwc_eventControl (hwc_eventControl ctx dpy HWC_EVENT_VSYNC 2).1 dpy
        HWC_EVENT_VSYNC 2).1.vstate_enable =
      (hwc_eventControl ctx dpy HWC_EVENT_VSYNC 2).1.vstate_enable := by
  cases hv : ctx.vstate_enable <;> simp [hwc_eventControl, hv, log]

/-! ## Return values of hwc_prepare and hwc_set -/

theorem hwc_prepare_primary_ret (c : Collaborators) (ctx : hwc_context_t)
    (list : Option hwc_display_contents_1_t) : (hwc_prepare_primary c ctx list).2 = 0 := by
  unfold hwc_prepare_primary
  split
  · dsimp only
    split_ifs <;> rfl
  · rfl

theorem hwc_prepare_external_ret (c : Collaborators) (ctx : hwc_context_t)
    (list : Option hwc_display_contents_1_t) : (hwc_prepare_external c ctx list).2 = 0 := by
  unfold hwc_prepare_external
  split
  · dsimp only
    split_ifs <;> rfl
  · rfl

theorem prepareLoop_ret (c : Collaborators) (displays : Displays) (k : Nat)
    (s : hwc_context_t × Int) : (prepareLoop c displays (k + 1) s).2 = 0 := by
  induction k generalizing s with
  | zero =>
    simp [prepareLoop, prepareBody, HWC_DISPLAY_PRIMARY, hwc_prepare_primary_ret]
  | succ k ih =>
    rw [prepareLoop]
    exact ih _

theorem hwc_prepare_ret (c : Collaborators) (ctx : hwc_context_t) (numDisplays : Nat)
    (displays : Displays) : (hwc_prepare c ctx numDisplays displays).2.2 = 0 := by
  unfold hwc_prepare
  dsimp only
  generalize prepareIterations numDisplays = k
  cases k with
  | zero => rfl
  | succ k => exact prepareLoop_ret c _ k _

/-- C2: `hwc_prepare` returns 0 for every `numDisplays`, so also for
`numDisplays = 3`, whose index 2 is neither primary nor external: the value
`-EINVAL` stored for that index is overwritten by the later iterations. -/
theorem hwc_prepare_unknown_display_ret (c : Collaborators) (ctx : hwc_context_t)
    (displays : Displays) :
    (∀ numDisplays, (hwc_prepare c ctx numDisplays displays).2.2 = 0) ∧
    (hwc_prepare c ctx 3 displays).2.2 ≠ -EINVAL := by
  refine ⟨fun n => hwc_prepare_ret c ctx n displays, ?_⟩
  rw [hwc_prepare_ret]
  decide

theorem hwc_set_succ (c : Collaborators) (ctx : hwc_context_t) (n : Nat)
    (displays : Displays) :
    hwc_set c ctx (n + 1) displays = setBody c displays (hwc_set c ctx n displays) n := by
  simp [hwc_set, List.range_succ, List.foldl_append]

theorem hwc_set_zero (c : Collaborators) (ctx : hwc_context_t) (displays : Displays) :
    hwc_set c ctx 0 displays = (ctx, 0) := by
  simp [hwc_set]

theorem hwc_set_one (c : Collaborators) (ctx : hwc_context_t) (displays : Displays) :
    hwc_set c ctx 1 displays =
      hwc_set_primary c (log ctx Event.hwc_set_primary) (displays 0) := by
  rw [hwc_set_succ, hwc_set_zero]
  simp [setBody, HWC_DISPLAY_PRIMARY]

theorem hwc_set_two (c : Collaborators) (ctx : hwc_context_t) (displays : Displays) :
    hwc_set c ctx 2 displays =
      hwc_set_external c
        (log (hwc_set_primary c (log ctx Event.hwc_set_primary) (displays 0)).1
          Event.hwc_set_external) (displays 1) := by
  rw [hwc_set_succ, hwc_set_one]
  simp [setBody, HWC_DISPLAY_PRIMARY, HWC_DISPLAY_EXTERNAL]

theorem hwc_set_ge_three (c : Collaborators) (ctx : hwc_context_t) (n : Nat)
    (displays : Displays) :
    hwc_set c ctx (n + 3) displays = ((hwc_set c ctx 2 displays).1, -EINVAL) := by
  induction n with
  | zero =>
    rw [hwc_set_succ]
    simp [setBody, HWC_DISPLAY_PRIMARY, HWC_DISPLAY_EXTERNAL]
  | succ n ih =>
    rw [show n + 1 + 3 = (n + 3) + 1 from rfl, hwc_set_succ, ih]
    simp [setBody, HWC_DISPLAY_PRIMARY, HWC_DISPLAY_EXTERNAL]

/-- C10: the value returned by `hwc_set` is the result of the last index
processed: 0 for no display, the result of `hwc_set_primary` for one display,
the result of `hwc_set_external` for two displays whatever the primary
returned (a failed primary commit followed by a successful external one gives
0), and `-EINVAL` for three displays or more. -/
theorem hwc_set_ret_last (c : Collaborators) (ctx : hwc_context_t) (displays : Displays) :
    (hwc_set c ctx 0 displays).2 = 0 ∧
    (hwc_set c ctx 1 displays).2 =
      (hwc_set_primary c (log ctx Event.hwc_set_primary) (displays 0)).2 ∧
    (hwc_set c ctx 2 displays).2 =
      (hwc_set_external c
        (log (hwc_set_primary c (log ctx Event.hwc_set_primary) (displays 0)).1
          Event.hwc_set_external) (displays 1)).2 ∧
    (∀ n, (hwc_set c ctx (n + 3) displays).2 = -EINVAL) ∧
    ((hwc_set_primary collabPrimaryFail (log ctxSample Event.hwc_set_primary)
        (displaysSample 0)).2 = -1 ∧
      (hwc_set collabPrimaryFail ctxSample 2 displaysSample).2 = 0) := by
  refine ⟨?_, ?_, ?_, ?_, ?_, ?_⟩
  · rw [hwc_set_zero]
  · rw [hwc_set_one]
  · rw [hwc_set_two]
  · intro n
    rw [hwc_set_ge_three]
  · decide
  · rw [hwc_set_two]
    decide

/-! ## Traces of the helpers -/

@[simp] theorem log_trace (ctx : hwc_context_t) (e : Event) :
    (log ctx e).trace = ctx.trace ++ [e] := rfl

@[simp] theorem log_dpyAttr (ctx : hwc_context_t) (e : Event) :
    (log ctx e).dpyAttr = ctx.dpyAttr := rfl

@[simp] theorem log_listStats (ctx : hwc_context_t) (e : Event) :
    (log ctx e).listStats = ctx.listStats := rfl

@[simp] theorem log_layerProp (ctx : hwc_context_t) (e : Event) :
    (log ctx e).layerProp = ctx.layerProp := rfl

@[simp] theorem reset_layer_prop_trace (ctx : hwc_context_t) (dpy : Nat) :
    (reset_layer_prop ctx dpy).trace = ctx.trace := by
  unfold reset_layer_prop
  simp only
  split <;> split <;> rfl

@[simp] theorem reset_layer_prop_dpyAttr (ctx : hwc_context_t) (dpy : Nat) :
    (reset_layer_prop ctx dpy).dpyAttr = ctx.dpyAttr := by
  unfold reset_layer_prop
  simp only
  split <;> split <;> rfl

@[simp] theorem reset_layer_prop_listStats (ctx : hwc_context_t) (dpy : Nat) :
    (reset_layer_prop ctx dpy).listStats = ctx.listStats := by
  unfold reset_layer_prop
  simp only
  split <;> split <;> rfl

@[simp] theorem setListStats_trace (c : Collaborators) (ctx : hwc_context_t)
    (l : hwc_display_contents_1_t) (dpy : Nat) :
    (setListStats c ctx l dpy).trace = ctx.trace ++ [Event.setListStats dpy] := rfl

@[simp] theorem setListStats_dpyAttr (c : Collaborators) (ctx : hwc_context_t)
    (l : hwc_display_contents_1_t) (dpy : Nat) :
    (setListStats c ctx l dpy).dpyAttr = ctx.dpyAttr := rfl

@[simp] theorem setListStats_layerProp (c : Collaborators) (ctx : hwc_context_t)
    (l : hwc_display_contents_1_t) (dpy : Nat) :
    (setListStats c ctx l dpy).layerProp = ctx.layerProp := rfl

/-- Closed form of `reset`. -/
theorem reset_eq (ctx : hwc_context_t) (n : Nat) (displays : Displays) :
    reset ctx n displays =
      (log (log { ctx with
                    listStats := fun i =>
                      if i < 2 then { numAppLayers := 0, yuvIndex := -1 }
                      else ctx.listStats i }
              Event.VideoOverlay_reset) Event.FBUpdate_reset,
       fun i => if i < 2 then resetList (displays i) else displays i) := by
  have hr : List.range 2 = [0, 1] := by decide
  unfold reset
  simp only [HWC_NUM_DISPLAY_TYPES, hr, List.foldl_cons, List.foldl_nil, resetStep]
  congr 1
  · congr 2
    congr 1
    funext i
    by_cases h0 : i = 0
    · subst h0; simp [setAt]
    · by_cases h1 : i = 1
      · subst h1; simp [setAt]
      · have : ¬ i < 2 := by omega
        simp [setAt, h0, h1, this]
  · funext i
    by_cases h0 : i = 0
    · subst h0; simp [setAt]
    · by_cases h1 : i = 1
      · subst h1; simp [setAt]
      · have : ¬ i < 2 := by omega
        simp [setAt, h0, h1, this]

/-- The calls of `hwc_prepare_external` all work for the external display. -/
theorem hwc_prepare_external_trace (c : Collaborators) (ctx : hwc_context_t)
    (list : Option hwc_display_contents_1_t) :
    ∃ E, (hwc_prepare_external c ctx list).1.trace = ctx.trace ++ E ∧
      ∀ e ∈ E, e.display = some HWC_DISPLAY_EXTERNAL := by
  unfold hwc_prepare_external
  split
  · dsimp only
    split_ifs <;>
      (try simp only [log_trace, setListStats_trace, reset_layer_prop_trace,
        List.append_assoc, List.cons_append, List.nil_append]) <;>
      first
        | exact ⟨_, rfl, by simp [Event.display]⟩
        | exact ⟨[], by simp, by simp⟩
  · exact ⟨[], by simp, by simp⟩

/-- The calls of `hwc_prepare_primary` all work for the primary display. -/
theorem hwc_prepare_primary_trace (c : Collaborators) (ctx : hwc_context_t)
    (list : Option hwc_display_contents_1_t) :
    ∃ P, (hwc_prepare_primary c ctx list).1.trace = ctx.trace ++ P ∧
      ∀ e ∈ P, e.display = some HWC_DISPLAY_PRIMARY := by
  unfold hwc_prepare_primary
  split
  · dsimp only
    split_ifs <;>
      (try simp only [log_trace, setListStats_trace, reset_layer_prop_trace,
        List.append_assoc, List.cons_append, List.nil_append]) <;>
      first
        | exact ⟨_, rfl, by simp [Event.display]⟩
        | exact ⟨[], by simp, by simp⟩
  · exact ⟨[], by simp, by simp⟩

/-- The calls of `hwc_set_primary` all work for the primary display. -/
theorem hwc_set_primary_trace (c : Collaborators) (ctx : hwc_context_t)
    (list : Option hwc_display_contents_1_t) :
    ∃ P, (hwc_set_primary c ctx list).1.trace = ctx.trace ++ P ∧
      ∀ e ∈ P, e.display = some HWC_DISPLAY_PRIMARY := by
  unfold hwc_set_primary
  split
  · dsimp only
    split_ifs <;>
      (try simp only [log_trace, List.append_assoc, List.cons_append, List.nil_append]) <;>
      first
        | exact ⟨_, rfl, by simp [Event.display]⟩
        | exact ⟨[], by simp, by simp⟩
  · exact ⟨[], by simp, by simp⟩

/-- The calls of `hwc_set_external` all work for the external display. -/
theorem hwc_set_external_trace (c : Collaborators) (ctx : hwc_context_t)
    (list : Option hwc_display_contents_1_t) :
    ∃ E, (hwc_set_external c ctx list).1.trace = ctx.trace ++ E ∧
      ∀ e ∈ E, e.display = some HWC_DISPLAY_EXTERNAL := by
  unfold hwc_set_external
  split
  · dsimp only
    split_ifs <;>
      (try simp only [log_trace, List.append_assoc, List.cons_append, List.nil_append]) <;>
      first
        | exact ⟨_, rfl, by simp [Event.display]⟩
        | exact ⟨[], by simp, by simp⟩
  · exact ⟨[], by simp, by simp⟩

theorem prepareIterations_two : prepareIterations 2 = 2 := by decide

theorem prepareLoop_two (c : Collaborators) (displays : Displays)
    (s : hwc_context_t × Int) :
    prepareLoop c displays 2 s =
      hwc_prepare_primary c
        (log (hwc_prepare_external c (log s.1 Event.hwc_prepare_external) (displays 1)).1
          Event.hwc_prepare_primary) (displays 0) := by
  simp [prepareLoop, prepareBody, HWC_DISPLAY_PRIMARY, HWC_DISPLAY_EXTERNAL]

/-- C4: with two displays, `hwc_prepare` opens the overlay transaction,
dispatches to `hwc_prepare_external` (whose calls all concern the external
display), then to `hwc_prepare_primary` (whose calls all concern the primary),
and then closes the transaction; `hwc_set` dispatches to `hwc_set_primary`
first and to `hwc_set_external` second. -/
theorem prepare_set_order (c : Collaborators) (ctx : hwc_context_t) (displays : Displays) :
    (∃ E P, (hwc_prepare c ctx 2 displays).1.trace =
        ctx.trace ++ [Event.VideoOverlay_reset, Event.FBUpdate_reset, Event.configBegin,
          Event.hwc_prepare_external] ++ E ++ [Event.hwc_prepare_primary] ++ P ++
          [Event.configDone] ∧
        (∀ e ∈ E, e.display = some HWC_DISPLAY_EXTERNAL) ∧
        (∀ e ∈ P, e.display = some HWC_DISPLAY_PRIMARY)) ∧
    (∃ P E, (hwc_set c ctx 2 displays).1.trace =
        ctx.trace ++ [Event.hwc_set_primary] ++ P ++ [Event.hwc_set_external] ++ E ∧
        (∀ e ∈ P, e.display = some HWC_DISPLAY_PRIMARY) ∧
        (∀ e ∈ E, e.display = some HWC_DISPLAY_EXTERNAL)) := by
  constructor
  · unfold hwc_prepare
    simp only [prepareIterations_two, prepareLoop_two, reset_eq]
    obtain ⟨E, hE, hE2⟩ := hwc_prepare_external_trace c
      (log (log (log (log { ctx with
          listStats := fun i =>
            if i < 2 then { numAppLayers := 0, yuvIndex := -1 } else ctx.listStats i }
        Event.VideoOverlay_reset) Event.FBUpdate_reset) Event.configBegin)
        Event.hwc_prepare_external)
      (if 1 < 2 then resetList (displays 1) else displays 1)
    obtain ⟨P, hP, hP2⟩ := hwc_prepare_primary_trace c
      (log (hwc_prepare_external c (log (log (log (log { ctx with
          listStats := fun i =>
            if i < 2 then { numAppLayers := 0, yuvIndex := -1 } else ctx.listStats i }
        Event.VideoOverlay_reset) Event.FBUpdate_reset) Event.configBegin)
        Event.hwc_prepare_external)
        (if 1 < 2 then resetList (displays 1) else displays 1)).1 Event.hwc_prepare_primary)
      (if 0 < 2 then resetList (displays 0) else displays 0)
    refine ⟨E, P, ?_, hE2, hP2⟩
    rw [log_trace, hP, log_trace, hE]
    simp
  · rw [hwc_set_two]
    obtain ⟨P, hP, hP2⟩ := hwc_set_primary_trace c (log ctx Event.hwc_set_primary) (displays 0)
    obtain ⟨E, hE, hE2⟩ := hwc_set_external_trace c
      (log (hwc_set_primary c (log ctx Event.hwc_set_primary) (displays 0)).1
        Event.hwc_set_external) (displays 1)
    refine ⟨P, E, ?_, hP2, hE2⟩
    rw [hE, log_trace, hP]
    simp

/-! ## Failures inside hwc_set -/

theorem hwc_set_primary_dpyAttr (c : Collaborators) (ctx : hwc_context_t)
    (list : Option hwc_display_contents_1_t) :
    (hwc_set_primary c ctx list).1.dpyAttr = ctx.dpyAttr := by
  unfold hwc_set_primary
  split
  · dsimp only
    split_ifs <;> simp
  · rfl

/-- C9: in `hwc_set`, for an active primary display and for an active,
connected external display with more than one layer, every draw step that fails
and a failing post make the result of `hwc_set_primary` / `hwc_set_external`
negative; the post is attempted as the last call whatever the draw steps
returned; and with two displays the external display is processed in full
whatever the primary returned. -/
theorem hwc_set_failures (c : Collaborators) (ctx : hwc_context_t) :
    (∀ l : hwc_display_contents_1_t, l.numHwLayers > 1 →
      (ctx.dpyAttr HWC_DISPLAY_PRIMARY).isActive = true →
      let fb := l.hwLayers.getD (l.numHwLayers - 1) default
      let c1 := log ctx (Event.hwc_sync HWC_DISPLAY_PRIMARY)
      let c2 := log c1 (Event.VideoOverlay_draw HWC_DISPLAY_PRIMARY)
      let c3 := log c2 Event.MDPComp_draw
      let c4 := if fb.flags &&& HWC_SKIP_LAYER = 0 then
                  log c3 (Event.FBUpdate_draw HWC_DISPLAY_PRIMARY) else c3
      let r := hwc_set_primary c ctx (some l)
      (c.VideoOverlay_draw c1 l HWC_DISPLAY_PRIMARY = false → r.2 < 0) ∧
      (c.MDPComp_draw c2 l = false → r.2 < 0) ∧
      (fb.compositionType = HWC_FRAMEBUFFER_TARGET → fb.handle ≠ 0 →
        fb.flags &&& HWC_SKIP_LAYER = 0 →
        c.FBUpdate_draw c3 fb HWC_DISPLAY_PRIMARY = false → r.2 < 0) ∧
      (fb.compositionType = HWC_FRAMEBUFFER_TARGET → fb.handle ≠ 0 →
        c.mFbDev_post c4 fb.handle ≠ 0 → r.2 < 0) ∧
      (fb.compositionType = HWC_FRAMEBUFFER_TARGET → fb.handle ≠ 0 →
        r.1.trace = c4.trace ++ [Event.mFbDev_post])) ∧
    (∀ l : hwc_display_contents_1_t, l.numHwLayers > 1 →
      (ctx.dpyAttr HWC_DISPLAY_EXTERNAL).isActive = true →
      (ctx.dpyAttr HWC_DISPLAY_EXTERNAL).connected = true →
      let fb := l.hwLayers.getD (l.numHwLayers - 1) default
      let c1 := log ctx (Event.hwc_sync HWC_DISPLAY_EXTERNAL)
      let c2 := log c1 (Event.VideoOverlay_draw HWC_DISPLAY_EXTERNAL)
      let c3 := if fb.compositionType = HWC_FRAMEBUFFER_TARGET ∧
                    fb.flags &&& HWC_SKIP_LAYER = 0 ∧ fb.handle ≠ 0 then
                  log c2 (Event.FBUpdate_draw HWC_DISPLAY_EXTERNAL) else c2
      let r := hwc_set_external c ctx (some l)
      (c.VideoOverlay_draw c1 l HWC_DISPLAY_EXTERNAL = false → r.2 < 0) ∧
      (fb.compositionType = HWC_FRAMEBUFFER_TARGET → fb.flags &&& HWC_SKIP_LAYER = 0 →
        fb.handle ≠ 0 →
        c.FBUpdate_draw c2 fb HWC_DISPLAY_EXTERNAL = false → r.2 < 0) ∧
      (c.mExtDisplay_post c3 = false → r.2 < 0) ∧
      r.1.trace = c3.trace ++ [Event.mExtDisplay_post]) ∧
    (∀ (displays : Displays) (l : hwc_display_contents_1_t), displays 1 = some l →
      l.numHwLayers > 1 →
      (ctx.dpyAttr HWC_DISPLAY_EXTERNAL).isActive = true →
      (ctx.dpyAttr HWC_DISPLAY_EXTERNAL).connected = true →
      let p := hwc_set_primary c (log ctx Event.hwc_set_primary) (displays 0)
      hwc_set c ctx 2 displays =
        hwc_set_external c (log p.1 Event.hwc_set_external) (some l) ∧
      (hwc_set c ctx 2 displays).1.trace.getLast? = some Event.mExtDisplay_post) := by
  refine ⟨?_, ?_, ?_⟩
  · intro l hn ha
    simp only [hwc_set_primary, hn, ha, and_self, if_true]
    generalize l.hwLayers.getD (l.numHwLayers - 1) default = fb
    refine ⟨?_, ?_, ?_, ?_, ?_⟩
    · intro h
      simp only [h, Bool.not_false, Bool.not_true, if_true, ite_self]
      split_ifs <;> simp
    · intro h
      simp only [h, Bool.not_false, Bool.not_true, if_true, ite_self]
      split_ifs <;> simp
    · intro h1 h2 h3 h4
      simp only [h1, h2, h3, h4, Bool.not_false, ne_eq, not_false_eq_true, and_self, if_true]
      split_ifs <;> simp
    · intro h1 h2 h3
      by_cases hs : fb.flags &&& HWC_SKIP_LAYER = 0
      · simp only [hs, if_true] at h3
        simp only [h1, h2, hs, h3, ne_eq, not_false_eq_true, and_self, if_true]
        simp
      · simp only [hs, if_false] at h3
        simp only [h1, h2, hs, h3, ne_eq, not_false_eq_true, and_self, if_true, if_false]
        simp
    · intro h1 h2
      simp only [h1, h2, ne_eq, not_false_eq_true, and_self, if_true]
      split_ifs <;> simp
  · intro l hn ha hc
    simp only [hwc_set_external, hn, ha, hc, and_self, if_true]
    generalize l.hwLayers.getD (l.numHwLayers - 1) default = fb
    refine ⟨?_, ?_, ?_, ?_⟩
    · intro h
      simp only [h, Bool.not_false, Bool.not_true, if_true, ite_self]
      split_ifs <;> simp
    · intro h1 h2 h3 h4
      simp only [h1, h2, h3, h4, Bool.not_false, ne_eq, not_false_eq_true, and_self, if_true]
      split_ifs <;> simp
    · intro h
      by_cases hs : fb.compositionType = HWC_FRAMEBUFFER_TARGET ∧
          fb.flags &&& HWC_SKIP_LAYER = 0 ∧ fb.handle ≠ 0
      · simp only [if_pos hs] at h ⊢
        simp only [h, Bool.not_false, if_true]
        simp
      · simp only [if_neg hs] at h ⊢
        simp only [h, Bool.not_false, if_true]
        simp
    · split_ifs <;> simp
  · intro displays l hl hn ha hc
    simp only [hwc_set_two, hl, true_and]
    have hd : (log (hwc_set_primary c (log ctx Event.hwc_set_primary) (displays 0)).1
        Event.hwc_set_external).dpyAttr = ctx.dpyAttr := by
      rw [log_dpyAttr, hwc_set_primary_dpyAttr, log_dpyAttr]
    simp only [hwc_set_external, hn, hd, ha, hc, and_self, if_true]
    split_ifs <;> simp

/-- Witness of `hwc_set_failures`: every draw step and both posts fail on
the sample displays. -/
theorem hwc_set_failures_witness :
    (hwc_set_primary collabFail ctxSample (some listSample)).2 < 0 ∧
    (hwc_set_primary collabFail ctxSample (some listSample)).1.trace =
      [Event.hwc_sync HWC_DISPLAY_PRIMARY, Event.VideoOverlay_draw HWC_DISPLAY_PRIMARY,
        Event.MDPComp_draw, Event.FBUpdate_draw HWC_DISPLAY_PRIMARY] ++ [Event.mFbDev_post] ∧
    (hwc_set_external collabFail ctxSample (some listSample)).2 < 0 ∧
    (hwc_set collabFail ctxSample 2 displaysSample).1.trace.getLast? =
      some Event.mExtDisplay_post :=
  ⟨((hwc_set_failures collabFail ctxSample).1 listSample (by decide) rfl).1 rfl,
   ((hwc_set_failures collabFail ctxSample).1 listSample (by decide) rfl).2.2.2.2
      rfl (by decide),
   ((hwc_set_failures collabFail ctxSample).2.1 listSample (by decide) rfl rfl).1 rfl,
   ((hwc_set_failures collabFail ctxSample).2.2 displaysSample listSample rfl
      (by decide) rfl rfl).2⟩

/-! ## Hot-plug detection in hwc_blank -/

theorem hwc_blank_unsupported (c : Collaborators) (ctx : hwc_context_t) (dpy blank : Int)
    (h0 : dpy ≠ (HWC_DISPLAY_PRIMARY : Int)) (h1 : dpy ≠ (HWC_DISPLAY_EXTERNAL : Int)) :
    hwc_blank c ctx dpy blank = (ctx, -EINVAL) := by
  simp [hwc_blank, h0, h1]

theorem hwc_blank_supported_hpd (c : Collaborators) (ctx : hwc_context_t) (dpy blank : Int)
    (h : dpy = (HWC_DISPLAY_PRIMARY : Int) ∨ dpy = (HWC_DISPLAY_EXTERNAL : Int)) :
    (hwc_blank c ctx dpy blank).1.isHPDEnabled = true ∧
    (hwc_blank c ctx dpy blank).1.trace.count (Event.setHPD 1) =
      ctx.trace.count (Event.setHPD 1) + (if ctx.isHPDEnabled = true then 0 else 1) := by
  rcases h with h | h <;> subst h <;> by_cases hb : blank = 0 <;>
    cases hh : ctx.isHPDEnabled <;>
    simp [hwc_blank, HWC_DISPLAY_PRIMARY, HWC_DISPLAY_EXTERNAL, hb, hh, log] <;>
    split_ifs <;> simp [hh, List.count_append, List.count_cons]

theorem blankSeq_count_enabled (c : Collaborators) (calls : List (Int × Int))
    (ctx : hwc_context_t) (h : ctx.isHPDEnabled = true) :
    (blankSeq c ctx calls).trace.count (Event.setHPD 1) =
      ctx.trace.count (Event.setHPD 1) := by
  induction calls generalizing ctx with
  | nil => rfl
  | cons x rest ih =>
    obtain ⟨dpy, blank⟩ := x
    rw [blankSeq]
    by_cases hs : dpy = (HWC_DISPLAY_PRIMARY : Int) ∨ dpy = (HWC_DISPLAY_EXTERNAL : Int)
    · obtain ⟨h1, h2⟩ := hwc_blank_supported_hpd c ctx dpy blank hs
      rw [ih _ h1, h2]
      simp [h]
    · have h0 : dpy ≠ (HWC_DISPLAY_PRIMARY : Int) := fun e => hs (Or.inl e)
      have h1 : dpy ≠ (HWC_DISPLAY_EXTERNAL : Int) := fun e => hs (Or.inr e)
      rw [hwc_blank_unsupported c ctx dpy blank h0 h1]
      exact ih ctx h

theorem blankSeq_count (c : Collaborators) (calls : List (Int × Int)) (ctx : hwc_context_t)
    (h : ctx.isHPDEnabled = false) :
    (blankSeq c ctx calls).trace.count (Event.setHPD 1) =
      ctx.trace.count (Event.setHPD 1) +
        (if calls.any (fun x => blankSupported x.1) = true then 1 else 0) := by
  induction calls generalizing ctx with
  | nil => simp [blankSeq]
  | cons x rest ih =>
    obtain ⟨dpy, blank⟩ := x
    rw [blankSeq]
    by_cases hs : dpy = (HWC_DISPLAY_PRIMARY : Int) ∨ dpy = (HWC_DISPLAY_EXTERNAL : Int)
    · obtain ⟨h1, h2⟩ := hwc_blank_supported_hpd c ctx dpy blank hs
      have hb : blankSupported dpy = true := by
        simpa [blankSupported] using hs
      rw [blankSeq_count_enabled c rest _ h1, h2]
      simp [h, hb]
    · have h0 : dpy ≠ (HWC_DISPLAY_PRIMARY : Int) := fun e => hs (Or.inl e)
      have h1 : dpy ≠ (HWC_DISPLAY_EXTERNAL : Int) := fun e => hs (Or.inr e)
      have hb : blankSupported dpy = false := by
        simp [blankSupported, h0, h1]
      rw [hwc_blank_unsupported c ctx dpy blank h0 h1, ih ctx h]
      simp only [List.any_cons, hb, Bool.false_or]

theorem blankSeq_unsupported (c : Collaborators) (pre : List (Int × Int)) (ctx : hwc_context_t)
    (h : ∀ x ∈ pre, x.1 ≠ (HWC_DISPLAY_PRIMARY : Int) ∧ x.1 ≠ (HWC_DISPLAY_EXTERNAL : Int)) :
    blankSeq c ctx pre = ctx := by
  induction pre generalizing ctx with
  | nil => rfl
  | cons x rest ih =>
    obtain ⟨dpy, blank⟩ := x
    have hx := h (dpy, blank) (List.mem_cons_self _ _)
    rw [blankSeq, hwc_blank_unsupported c ctx dpy blank hx.1 hx.2]
    exact ih ctx (fun y hy => h y (List.mem_cons_of_mem _ hy))

theorem blankSeq_append (c : Collaborators) (xs ys : List (Int × Int)) (ctx : hwc_context_t) :
    blankSeq c ctx (xs ++ ys) = blankSeq c (blankSeq c ctx xs) ys := by
  induction xs generalizing ctx with
  | nil => rfl
  | cons x rest ih =>
    obtain ⟨dpy, blank⟩ := x
    simp only [List.cons_append, blankSeq]
    exact ih _

/-- C7 (amended): over a sequence of `hwc_blank` calls starting with
`isHPDEnabled = false`, `setHPD(1)` is called once if some call names the
primary or the external display and never otherwise; it is called in the first
such call, whether or not the driver step of that call succeeds; calls with an
unsupported display before it change nothing, and no later call enables it
again. -/
theorem hwc_blank_hpd_once (c : Collaborators) (ctx : hwc_context_t)
    (calls : List (Int × Int)) (h0 : ctx.isHPDEnabled = false) :
    (blankSeq c ctx calls).trace.count (Event.setHPD 1) =
      ctx.trace.count (Event.setHPD 1) +
        (if calls.any (fun x => blankSupported x.1) = true then 1 else 0) ∧
    (∀ (pre post : List (Int × Int)) (dpy blank : Int),
      calls = pre ++ (dpy, blank) :: post →
      (∀ x ∈ pre, x.1 ≠ (HWC_DISPLAY_PRIMARY : Int) ∧ x.1 ≠ (HWC_DISPLAY_EXTERNAL : Int)) →
      (dpy = (HWC_DISPLAY_PRIMARY : Int) ∨ dpy = (HWC_DISPLAY_EXTERNAL : Int)) →
      blankSeq c ctx pre = ctx ∧
      (hwc_blank c ctx dpy blank).1.trace.count (Event.setHPD 1) =
        ctx.trace.count (Event.setHPD 1) + 1 ∧
      (blankSeq c ctx calls).trace.count (Event.setHPD 1) =
        (hwc_blank c ctx dpy blank).1.trace.count (Event.setHPD 1)) := by
  constructor
  · exact blankSeq_count c calls ctx h0
  · intro pre post dpy blank hcalls hpre hdpy
    have hp := blankSeq_unsupported c pre ctx hpre
    obtain ⟨h1, h2⟩ := hwc_blank_supported_hpd c ctx dpy blank hdpy
    refine ⟨hp, ?_, ?_⟩
    · rw [h2]
      simp [h0]
    · rw [hcalls, blankSeq_append, hp, blankSeq, blankSeq_count_enabled c post _ h1]

/-- Witness of `hwc_blank_hpd_once`: an unsupported display, then a failing
blank of the primary, then an unblank. -/
theorem hwc_blank_hpd_once_witness :
    (blankSeq collabFail ctxSample [(7, 1), (0, 1), (0, 0)]).trace.count (Event.setHPD 1) =
      ctxSample.trace.count (Event.setHPD 1) +
        (if [((7 : Int), (1 : Int)), (0, 1), (0, 0)].any (fun x => blankSupported x.1) = true
          then 1 else 0) ∧
    (blankSeq collabFail ctxSample [(7, 1)] = ctxSample ∧
      (hwc_blank collabFail ctxSample 0 1).1.trace.count (Event.setHPD 1) =
        ctxSample.trace.count (Event.setHPD 1) + 1 ∧
      (blankSeq collabFail ctxSample [(7, 1), (0, 1), (0, 0)]).trace.count (Event.setHPD 1) =
        (hwc_blank collabFail ctxSample 0 1).1.trace.count (Event.setHPD 1)) :=
  ⟨(hwc_blank_hpd_once collabFail ctxSample [(7, 1), (0, 1), (0, 0)] rfl).1,
   (hwc_blank_hpd_once collabFail ctxSample [(7, 1), (0, 1), (0, 0)] rfl).2
     [(7, 1)] [(0, 0)] 0 1 rfl (by decide) (Or.inl (by decide))⟩

/-- C7 (counterexample): blanking the primary display with a failing driver
returns a negative value and still calls `setHPD(1)`. -/
theorem hwc_blank_hpd_on_failure :
    ¬ ((hwc_blank collabFail ctxSample 0 1).2 < 0 →
        Event.setHPD 1 ∉ (hwc_blank collabFail ctxSample 0 1).1.trace) := by
  decide

/-! ## hwc_getDisplayAttributes -/

theorem attributesLoop_congr (dpi1000 : Nat → Int) (a : DisplayAttributes)
    (attributes attributes2 : Nat → Nat) (n i : Nat) (values : Nat → Int)
    (h : ∀ j, i ≤ j → j < i + n → attributes2 j = attributes j) :
    attributesLoop dpi1000 a attributes2 n i values =
      attributesLoop dpi1000 a attributes n i values := by
  induction n generalizing i values with
  | zero => rfl
  | succ n ih =>
    rw [attributesLoop, attributesLoop, h i (Nat.le_refl i) (by omega)]
    cases attributeValue dpi1000 a (attributes i) with
    | none => rfl
    | some v =>
      exact ih (i + 1) (setAt values i v) (fun j h1 h2 => h j (by omega) (by omega))

theorem attributesLoop_spec (dpi1000 : Nat → Int) (a : DisplayAttributes)
    (attributes : Nat → Nat) (n i : Nat) (values : Nat → Int) (k : Nat) (hk : k ≤ n)
    (hgood : ∀ j, i ≤ j → j < i + k → (attributeValue dpi1000 a (attributes j)).isSome = true)
    (hstop : k < n → attributeValue dpi1000 a (attributes (i + k)) = none) :
    attributesLoop dpi1000 a attributes n i values =
      (fun x => if i ≤ x ∧ x < i + k
          then (attributeValue dpi1000 a (attributes x)).getD 0 else values x,
       if k = n then 0 else -EINVAL) := by
  induction n generalizing i values k with
  | zero =>
    have hk0 : k = 0 := by omega
    subst hk0
    rw [attributesLoop]
    refine Prod.ext ?_ ?_
    · funext x
      have hx : ¬ (i ≤ x ∧ x < i + 0) := by omega
      exact (if_neg hx).symm
    · rfl
  | succ n ih =>
    rw [attributesLoop]
    cases k with
    | zero =>
      have h0 := hstop (by omega)
      rw [Nat.add_zero] at h0
      rw [h0]
      refine Prod.ext ?_ ?_
      · funext x
        have hx : ¬ (i ≤ x ∧ x < i + 0) := by omega
        exact (if_neg hx).symm
      · have hne : ¬ (0 = n + 1) := by omega
        dsimp only
        rw [if_neg hne]
    | succ k =>
      have hi := hgood i (Nat.le_refl i) (by omega)
      obtain ⟨v, hv⟩ := Option.isSome_iff_exists.mp hi
      rw [hv]
      dsimp only
      rw [ih (i + 1) (setAt values i v) k (by omega)
        (fun j h1 h2 => hgood j (by omega) (by omega))
        (fun h => by
          have := hstop (by omega)
          rwa [show i + 1 + k = i + (k + 1) by omega])]
      refine Prod.ext ?_ ?_
      · funext x
        dsimp only
        by_cases hx : x = i
        · subst hx
          have h1 : ¬ (x + 1 ≤ x ∧ x < x + 1 + k) := by omega
          have h2 : x ≤ x ∧ x < x + (k + 1) := by omega
          rw [if_neg h1, if_pos h2, hv]
          simp [setAt]
        · by_cases hr : i + 1 ≤ x ∧ x < i + 1 + k
          · have h2 : i ≤ x ∧ x < i + (k + 1) := by omega
            rw [if_pos hr, if_pos h2]
          · have h2 : ¬ (i ≤ x ∧ x < i + (k + 1)) := by omega
            rw [if_neg hr, if_neg h2]
            simp [setAt, hx]
      · dsimp only
        by_cases hkn : k = n
        · have : k + 1 = n + 1 := by omega
          rw [if_pos hkn, if_pos this]
        · have : ¬ (k + 1 = n + 1) := by omega
          rw [if_neg hkn, if_neg this]

theorem attributeValue_isSome (dpi1000 : Nat → Int) (a : DisplayAttributes) (ident : Nat) :
    (attributeValue dpi1000 a ident).isSome = true ↔
      ident ∈ [HWC_DISPLAY_VSYNC_PERIOD, HWC_DISPLAY_WIDTH, HWC_DISPLAY_HEIGHT,
        HWC_DISPLAY_DPI_X, HWC_DISPLAY_DPI_Y] := by
  unfold attributeValue
  split_ifs <;> simp_all

/-- C6 (amended): on a connected display `hwc_getDisplayAttributes` reads the
first five entries of the requested list and nothing else.  When all five are
recognized identifiers it returns 0 and stores the matching attribute in
`values[0..4]`; otherwise it returns `-EINVAL` at the first of the five that is
not recognized, having stored the values before it.  The sentinel
`HWC_DISPLAY_NO_ATTRIBUTE` is not recognized, and `values[5]` onwards are never
written. -/
theorem hwc_getDisplayAttributes_first_five (dpi1000 : Nat → Int) (ctx : hwc_context_t)
    (disp config : Nat) (attributes : Nat → Nat) (values : Nat → Int)
    (hconn : disp = HWC_DISPLAY_EXTERNAL → (ctx.dpyAttr disp).connected = true) :
    (∀ attributes2 : Nat → Nat, (∀ j, j < 5 → attributes2 j = attributes j) →
      hwc_getDisplayAttributes dpi1000 ctx disp config attributes2 values =
        hwc_getDisplayAttributes dpi1000 ctx disp config attributes values) ∧
    (∀ k, k ≤ 5 →
      (∀ j, j < k → attributes j ∈ [HWC_DISPLAY_VSYNC_PERIOD, HWC_DISPLAY_WIDTH,
        HWC_DISPLAY_HEIGHT, HWC_DISPLAY_DPI_X, HWC_DISPLAY_DPI_Y]) →
      (k < 5 → attributes k ∉ [HWC_DISPLAY_VSYNC_PERIOD, HWC_DISPLAY_WIDTH,
        HWC_DISPLAY_HEIGHT, HWC_DISPLAY_DPI_X, HWC_DISPLAY_DPI_Y]) →
      (hwc_getDisplayAttributes dpi1000 ctx disp config attributes values).2 =
        (if k = 5 then 0 else -EINVAL) ∧
      (∀ j, j < k →
        some ((hwc_getDisplayAttributes dpi1000 ctx disp config attributes values).1 j) =
          attributeValue dpi1000 (ctx.dpyAttr disp) (attributes j)) ∧
      (∀ j, k ≤ j →
        (hwc_getDisplayAttributes dpi1000 ctx disp config attributes values).1 j = values j)) ∧
    HWC_DISPLAY_NO_ATTRIBUTE ∉ [HWC_DISPLAY_VSYNC_PERIOD, HWC_DISPLAY_WIDTH,
        HWC_DISPLAY_HEIGHT, HWC_DISPLAY_DPI_X, HWC_DISPLAY_DPI_Y] := by
  have hfive : NUM_DISPLAY_ATTRIBUTES - 1 = 5 := by decide
  have hc : ¬ (disp = HWC_DISPLAY_EXTERNAL ∧ (ctx.dpyAttr disp).connected = false) := by
    rintro ⟨h1, h2⟩
    rw [hconn h1] at h2
    exact Bool.noConfusion h2
  refine ⟨?_, ?_, by decide⟩
  · intro attributes2 h
    unfold hwc_getDisplayAttributes
    rw [if_neg hc, if_neg hc, hfive]
    exact attributesLoop_congr dpi1000 _ attributes attributes2 5 0 values
      (fun j _ h2 => h j (by omega))
  · intro k hk hgood hstop
    have hspec := attributesLoop_spec dpi1000 (ctx.dpyAttr disp) attributes 5 0 values k hk
      (fun j _ h2 => (attributeValue_isSome dpi1000 _ _).mpr (hgood j (by omega)))
      (fun h => by
        have hn := hstop h
        rw [← attributeValue_isSome dpi1000 (ctx.dpyAttr disp)] at hn
        simpa using hn)
    unfold hwc_getDisplayAttributes
    rw [if_neg hc, hfive, hspec]
    refine ⟨rfl, ?_, ?_⟩
    · intro j hj
      have h1 : 0 ≤ j ∧ j < 0 + k := by omega
      have h2 := (attributeValue_isSome dpi1000 (ctx.dpyAttr disp) _).mpr (hgood j hj)
      obtain ⟨v, hv⟩ := Option.isSome_iff_exists.mp h2
      dsimp only
      rw [if_pos h1, hv]
      rfl
    · intro j hj
      have h1 : ¬ (0 ≤ j ∧ j < 0 + k) := by omega
      dsimp only
      rw [if_neg h1]

/-- Witness of `hwc_getDisplayAttributes_first_five`: the connected external
display of the sample context, asked for the five attributes in table order
followed by the sentinel. -/
theorem hwc_getDisplayAttributes_first_five_witness :
    (hwc_getDisplayAttributes (fun _ => 0) ctxSample 1 0
        (fun i => if i < 5 then i + 1 else HWC_DISPLAY_NO_ATTRIBUTE) (fun _ => 0)).2 =
      (if 5 = 5 then 0 else -EINVAL) :=
  ((hwc_getDisplayAttributes_first_five (fun _ => 0) ctxSample 1 0
      (fun i => if i < 5 then i + 1 else HWC_DISPLAY_NO_ATTRIBUTE) (fun _ => 0)
      (fun _ => rfl)).2.1 5 (Nat.le_refl 5)
    (by decide) (fun h => absurd h (by decide))).1

/-- C6 (counterexample): for the requested list made of the width identifier
followed by the sentinel, `hwc_getDisplayAttributes` on the primary display
does not return 0: it reaches the sentinel at index 1 and returns `-EINVAL`. -/
theorem hwc_getDisplayAttributes_sentinel_rejected :
    (hwc_getDisplayAttributes (fun _ => 0) ctxSample HWC_DISPLAY_PRIMARY 0
        (fun i => if i = 0 then HWC_DISPLAY_WIDTH else HWC_DISPLAY_NO_ATTRIBUTE)
        (fun _ => 0)).2 = -EINVAL ∧
    (hwc_getDisplayAttributes (fun _ => 0) ctxSample HWC_DISPLAY_PRIMARY 0
        (fun i => if i = 0 then HWC_DISPLAY_WIDTH else HWC_DISPLAY_NO_ATTRIBUTE)
        (fun _ => 0)).2 ≠ 0 := by
  decide

/-! ## Frame lemmas of the per-display prepare functions -/

theorem reset_layer_prop_len (ctx : hwc_context_t) (dpy : Nat) :
    layerPropLen (reset_layer_prop ctx dpy) dpy = (ctx.listStats dpy).numAppLayers := by
  unfold reset_layer_prop layerPropLen
  dsimp only
  by_cases hc : (ctx.listStats dpy).numAppLayers = 0
  · rw [hc]
    cases hp : ctx.layerProp dpy <;> simp [hp, setAt]
  · cases hp : ctx.layerProp dpy <;> simp [hp, hc, setAt]

theorem reset_layer_prop_other (ctx : hwc_context_t) (dpy d : Nat) (h : d ≠ dpy) :
    (reset_layer_prop ctx dpy).layerProp d = ctx.layerProp d := by
  unfold reset_layer_prop
  dsimp only
  split_ifs <;> simp [setAt, h]

theorem hwc_prepare_primary_not_prepared (c : Collaborators) (ctx : hwc_context_t)
    (list : Option hwc_display_contents_1_t) (h : ¬ primaryPrepared ctx list) :
    hwc_prepare_primary c ctx list = (ctx, 0) := by
  cases list with
  | none => rfl
  | some l =>
    unfold primaryPrepared at h
    unfold hwc_prepare_primary
    dsimp only
    by_cases h1 : l.numHwLayers > 0 ∧ (ctx.dpyAttr HWC_DISPLAY_PRIMARY).isActive = true
    · have h2 : ¬ ((l.hwLayers.getD (l.numHwLayers - 1) default).handle ≠ 0) :=
        fun h2 => h ⟨h1.1, h1.2, h2⟩
      rw [if_pos h1, if_neg h2]
    · rw [if_neg h1]

theorem hwc_prepare_external_not_prepared (c : Collaborators) (ctx : hwc_context_t)
    (list : Option hwc_display_contents_1_t) (h : ¬ externalPrepared ctx list) :
    hwc_prepare_external c ctx list = (ctx, 0) := by
  cases list with
  | none => rfl
  | some l =>
    unfold externalPrepared at h
    unfold hwc_prepare_external
    dsimp only
    by_cases h1 : l.numHwLayers > 1 ∧ (ctx.dpyAttr HWC_DISPLAY_EXTERNAL).isActive = true ∧
        (ctx.dpyAttr HWC_DISPLAY_EXTERNAL).connected = true
    · have h2 : ¬ ((l.hwLayers.getD (l.numHwLayers - 1) default).handle ≠ 0) :=
        fun h2 => h ⟨h1.1, h1.2.1, h1.2.2, h2⟩
      rw [if_pos h1, if_neg h2]
    · rw [if_neg h1]

theorem hwc_prepare_primary_prepared (c : Collaborators) (ctx : hwc_context_t)
    (list : Option hwc_display_contents_1_t) (h : primaryPrepared ctx list) :
    layerPropLen (hwc_prepare_primary c ctx list).1 HWC_DISPLAY_PRIMARY =
      ((hwc_prepare_primary c ctx list).1.listStats HWC_DISPLAY_PRIMARY).numAppLayers := by
  cases list with
  | none => exact absurd h (by simp [primaryPrepared])
  | some l =>
    unfold primaryPrepared at h
    have h1 : l.numHwLayers > 0 ∧ (ctx.dpyAttr HWC_DISPLAY_PRIMARY).isActive = true :=
      ⟨h.1, h.2.1⟩
    unfold hwc_prepare_primary
    dsimp only
    rw [if_pos h1, if_pos h.2.2]
    have key := reset_layer_prop_len (setListStats c ctx l HWC_DISPLAY_PRIMARY)
      HWC_DISPLAY_PRIMARY
    split_ifs <;> simpa [layerPropLen] using key

theorem hwc_prepare_external_prepared (c : Collaborators) (ctx : hwc_context_t)
    (list : Option hwc_display_contents_1_t) (h : externalPrepared ctx list) :
    layerPropLen (hwc_prepare_external c ctx list).1 HWC_DISPLAY_EXTERNAL =
      ((hwc_prepare_external c ctx list).1.listStats HWC_DISPLAY_EXTERNAL).numAppLayers := by
  cases list with
  | none => exact absurd h (by simp [externalPrepared])
  | some l =>
    unfold externalPrepared at h
    have h1 : l.numHwLayers > 1 ∧ (ctx.dpyAttr HWC_DISPLAY_EXTERNAL).isActive = true ∧
        (ctx.dpyAttr HWC_DISPLAY_EXTERNAL).connected = true := ⟨h.1, h.2.1, h.2.2.1⟩
    unfold hwc_prepare_external
    dsimp only
    rw [if_pos h1, if_pos h.2.2.2]
    have key := reset_layer_prop_len (setListStats c ctx l HWC_DISPLAY_EXTERNAL)
      HWC_DISPLAY_EXTERNAL
    simpa [layerPropLen] using key

theorem hwc_prepare_primary_frame (c : Collaborators) (ctx : hwc_context_t)
    (list : Option hwc_display_contents_1_t) :
    (hwc_prepare_primary c ctx list).1.dpyAttr = ctx.dpyAttr ∧
    (hwc_prepare_primary c ctx list).1.listStats HWC_DISPLAY_EXTERNAL =
      ctx.listStats HWC_DISPLAY_EXTERNAL ∧
    (hwc_prepare_primary c ctx list).1.layerProp HWC_DISPLAY_EXTERNAL =
      ctx.layerProp HWC_DISPLAY_EXTERNAL := by
  have hne : HWC_DISPLAY_EXTERNAL ≠ HWC_DISPLAY_PRIMARY := by decide
  unfold hwc_prepare_primary
  split
  · dsimp only
    split_ifs <;>
      simp [reset_layer_prop_other _ _ _ hne, setListStats, setAt, hne]
  · exact ⟨rfl, rfl, rfl⟩

theorem hwc_prepare_external_frame (c : Collaborators) (ctx : hwc_context_t)
    (list : Option hwc_display_contents_1_t) :
    (hwc_prepare_external c ctx list).1.dpyAttr = ctx.dpyAttr ∧
    (hwc_prepare_external c ctx list).1.listStats HWC_DISPLAY_PRIMARY =
      ctx.listStats HWC_DISPLAY_PRIMARY ∧
    (hwc_prepare_external c ctx list).1.layerProp HWC_DISPLAY_PRIMARY =
      ctx.layerProp HWC_DISPLAY_PRIMARY := by
  have hne : HWC_DISPLAY_PRIMARY ≠ HWC_DISPLAY_EXTERNAL := by decide
  unfold hwc_prepare_external
  split
  · dsimp only
    split_ifs <;>
      simp [reset_layer_prop_other _ _ _ hne, setListStats, setAt, hne]
  · exact ⟨rfl, rfl, rfl⟩

theorem resetLayer_handle (x : hwc_layer_1_t) : (resetLayer x).handle = x.handle := by
  unfold resetLayer
  split_ifs <;> rfl

theorem getD_map_resetLayer_handle (xs : List hwc_layer_1_t) (i : Nat) :
    ((xs.map resetLayer).getD i default).handle = (xs.getD i default).handle := by
  induction xs generalizing i with
  | nil => rfl
  | cons x rest ih =>
    cases i with
    | zero => exact resetLayer_handle x
    | succ i => exact ih i

theorem primaryPrepared_resetList (ctx ctx2 : hwc_context_t)
    (list : Option hwc_display_contents_1_t) (h : ctx2.dpyAttr = ctx.dpyAttr) :
    primaryPrepared ctx2 (resetList list) ↔ primaryPrepared ctx list := by
  cases list with
  | none => simp [resetList, primaryPrepared]
  | some l =>
    unfold resetList
    dsimp only
    split_ifs <;>
      simp only [primaryPrepared, h, hwc_display_contents_1_t.numHwLayers, List.length_map,
        getD_map_resetLayer_handle]

theorem externalPrepared_resetList (ctx ctx2 : hwc_context_t)
    (list : Option hwc_display_contents_1_t) (h : ctx2.dpyAttr = ctx.dpyAttr) :
    externalPrepared ctx2 (resetList list) ↔ externalPrepared ctx list := by
  cases list with
  | none => simp [resetList, externalPrepared]
  | some l =>
    unfold resetList
    dsimp only
    split_ifs <;>
      simp only [externalPrepared, h, hwc_display_contents_1_t.numHwLayers, List.length_map,
        getD_map_resetLayer_handle]

theorem prepareLoop_ge_two (c : Collaborators) (displays : Displays) (k : Nat)
    (s : hwc_context_t × Int) :
    prepareLoop c displays (k + 2) s =
      hwc_prepare_primary c
        (log (hwc_prepare_external c (log s.1 Event.hwc_prepare_external) (displays 1)).1
          Event.hwc_prepare_primary) (displays 0) := by
  induction k generalizing s with
  | zero => exact prepareLoop_two c displays s
  | succ k ih =>
    rw [show k + 1 + 2 = (k + 2) + 1 from rfl, prepareLoop, ih]
    simp [prepareBody, HWC_DISPLAY_PRIMARY, HWC_DISPLAY_EXTERNAL]

theorem prepareLoop_one (c : Collaborators) (displays : Displays)
    (s : hwc_context_t × Int) :
    prepareLoop c displays 1 s =
      hwc_prepare_primary c (log s.1 Event.hwc_prepare_primary) (displays 0) := by
  simp [prepareLoop, prepareBody, HWC_DISPLAY_PRIMARY]

/-! ## The context after hwc_prepare -/

theorem reset_facts (ctx : hwc_context_t) (n : Nat) (displays : Displays) :
    (reset ctx n displays).1.dpyAttr = ctx.dpyAttr ∧
    (reset ctx n displays).1.layerProp = ctx.layerProp ∧
    (reset ctx n displays).1.listStats 0 = { numAppLayers := 0, yuvIndex := -1 } ∧
    (reset ctx n displays).1.listStats 1 = { numAppLayers := 0, yuvIndex := -1 } ∧
    (reset ctx n displays).2 0 = resetList (displays 0) ∧
    (reset ctx n displays).2 1 = resetList (displays 1) ∧
    (reset ctx n displays).1.trace =
      ctx.trace ++ [Event.VideoOverlay_reset, Event.FBUpdate_reset] := by
  rw [reset_eq]
  simp

/-- The context that `hwc_prepare` returns, by number of loop iterations. -/
theorem hwc_prepare_ctx (c : Collaborators) (ctx : hwc_context_t) (n : Nat)
    (displays : Displays) :
    (hwc_prepare c ctx n displays).2.1 = (reset ctx n displays).2 ∧
    ((prepareIterations n = 0 ∧
        (hwc_prepare c ctx n displays).1 =
          log (log (reset ctx n displays).1 Event.configBegin) Event.configDone) ∨
     (prepareIterations n = 1 ∧
        (hwc_prepare c ctx n displays).1 =
          log (hwc_prepare_primary c
            (log (log (reset ctx n displays).1 Event.configBegin) Event.hwc_prepare_primary)
            ((reset ctx n displays).2 0)).1 Event.configDone) ∨
     (2 ≤ prepareIterations n ∧
        (hwc_prepare c ctx n displays).1 =
          log (hwc_prepare_primary c
            (log (hwc_prepare_external c
              (log (log (reset ctx n displays).1 Event.configBegin)
                Event.hwc_prepare_external)
              ((reset ctx n displays).2 1)).1 Event.hwc_prepare_primary)
            ((reset ctx n displays).2 0)).1 Event.configDone)) := by
  refine ⟨rfl, ?_⟩
  unfold hwc_prepare
  dsimp only
  generalize prepareIterations n = k
  match k with
  | 0 => exact Or.inl ⟨rfl, rfl⟩
  | 1 => exact Or.inr (Or.inl ⟨rfl, by rw [prepareLoop_one]⟩)
  | k + 2 => exact Or.inr (Or.inr ⟨by omega, by rw [prepareLoop_ge_two]⟩)

theorem layerPropLen_congr (a b : hwc_context_t) (d : Nat)
    (h : a.layerProp d = b.layerProp d) : layerPropLen a d = layerPropLen b d := by
  unfold layerPropLen
  rw [h]

/-- A primary display that `hwc_prepare` does not prepare keeps its layer
properties and is left with cleared statistics. -/
theorem hwc_prepare_primary_skipped (c : Collaborators) (ctx : hwc_context_t) (n : Nat)
    (displays : Displays)
    (h : ¬ (1 ≤ prepareIterations n ∧ primaryPrepared ctx (displays 0))) :
    (hwc_prepare c ctx n displays).1.layerProp 0 = ctx.layerProp 0 ∧
    (hwc_prepare c ctx n displays).1.listStats 0 = { numAppLayers := 0, yuvIndex := -1 } := by
  obtain ⟨hd, hl, hs0, hs1, hd0, hd1, ht⟩ := reset_facts ctx n displays
  obtain ⟨_, hk | hk | hk⟩ := hwc_prepare_ctx c ctx n displays
  · rw [hk.2]
    simp [hl, hs0]
  · have hnp : ¬ primaryPrepared ctx (displays 0) := fun hp => h ⟨by omega, hp⟩
    have hnp2 : ¬ primaryPrepared
        (log (log (reset ctx n displays).1 Event.configBegin) Event.hwc_prepare_primary)
        ((reset ctx n displays).2 0) := by
      rw [hd0, primaryPrepared_resetList ctx _ _ (by simp [hd])]
      exact hnp
    rw [hk.2, hwc_prepare_primary_not_prepared c _ _ hnp2]
    simp [hl, hs0]
  · have hnp : ¬ primaryPrepared ctx (displays 0) := fun hp => h ⟨by omega, hp⟩
    obtain ⟨f1, f2, f3⟩ := hwc_prepare_external_frame c
      (log (log (reset ctx n displays).1 Event.configBegin) Event.hwc_prepare_external)
      ((reset ctx n displays).2 1)
    have hnp2 : ¬ primaryPrepared
        (log (hwc_prepare_external c
          (log (log (reset ctx n displays).1 Event.configBegin) Event.hwc_prepare_external)
          ((reset ctx n displays).2 1)).1 Event.hwc_prepare_primary)
        ((reset ctx n displays).2 0) := by
      rw [hd0, primaryPrepared_resetList ctx _ _ (by simp [f1, hd])]
      exact hnp
    rw [hk.2, hwc_prepare_primary_not_prepared c _ _ hnp2]
    simp only [log_layerProp, log_listStats]
    have e0 : HWC_DISPLAY_PRIMARY = 0 := rfl
    rw [e0] at f2 f3
    rw [f2, f3]
    simp [hl, hs0]

/-- An external display that `hwc_prepare` does not prepare keeps its layer
properties and is left with cleared statistics. -/
theorem hwc_prepare_external_skipped (c : Collaborators) (ctx : hwc_context_t) (n : Nat)
    (displays : Displays)
    (h : ¬ (2 ≤ prepareIterations n ∧ externalPrepared ctx (displays 1))) :
    (hwc_prepare c ctx n displays).1.layerProp 1 = ctx.layerProp 1 ∧
    (hwc_prepare c ctx n displays).1.listStats 1 = { numAppLayers := 0, yuvIndex := -1 } := by
  obtain ⟨hd, hl, hs0, hs1, hd0, hd1, ht⟩ := reset_facts ctx n displays
  have e1 : HWC_DISPLAY_EXTERNAL = 1 := rfl
  obtain ⟨_, hk | hk | hk⟩ := hwc_prepare_ctx c ctx n displays
  · rw [hk.2]
    simp [hl, hs1]
  · obtain ⟨f1, f2, f3⟩ := hwc_prepare_primary_frame c
      (log (log (reset ctx n displays).1 Event.configBegin) Event.hwc_prepare_primary)
      ((reset ctx n displays).2 0)
    rw [e1] at f2 f3
    rw [hk.2]
    simp only [log_layerProp, log_listStats]
    rw [f2, f3]
    simp [hl, hs1]
  · have hnp : ¬ externalPrepared ctx (displays 1) := fun hp => h ⟨hk.1, hp⟩
    have hnp2 : ¬ externalPrepared
        (log (log (reset ctx n displays).1 Event.configBegin) Event.hwc_prepare_external)
        ((reset ctx n displays).2 1) := by
      rw [hd1, externalPrepared_resetList ctx _ _ (by simp [hd])]
      exact hnp
    rw [hk.2, hwc_prepare_external_not_prepared c _ _ hnp2]
    obtain ⟨f1, f2, f3⟩ := hwc_prepare_primary_frame c
      (log (log (log (reset ctx n displays).1 Event.configBegin) Event.hwc_prepare_external)
        Event.hwc_prepare_primary)
      ((reset ctx n displays).2 0)
    rw [e1] at f2 f3
    simp only [log_layerProp, log_listStats]
    rw [f2, f3]
    simp [hl, hs1]

theorem prepareIterations_small (m : Nat) (h : m ≤ 2 ^ 31) : prepareIterations m = m := by
  unfold prepareIterations toInt32
  by_cases h0 : m = 0
  · subst h0
    decide
  · rw [if_neg h0]
    have h1 : (m - 1) % 2 ^ 32 = m - 1 := Nat.mod_eq_of_lt (by omega)
    rw [h1]
    have h2 : m - 1 < 2 ^ 31 := by omega
    rw [if_pos h2]
    omega

/-- C5 (amended): after `hwc_prepare`, for a display that the call prepares
(its index is visited by the loop, its list is non-null with enough layers, it
is active, connected in the case of the external display, and its target layer
has a buffer), the length of the `layerProp` array equals
`listStats[dpy].numAppLayers` as left by the call; for a display that the call
does not prepare, the array is the one it had before the call and
`numAppLayers` is 0.  The loop visits every index below `numDisplays` when
`numDisplays` is at most 2^31. -/
theorem layerProp_length_after_prepare (c : Collaborators) (ctx : hwc_context_t) (n : Nat)
    (displays : Displays) :
    ((1 ≤ prepareIterations n ∧ primaryPrepared ctx (displays 0)) →
      layerPropLen (hwc_prepare c ctx n displays).1 0 =
        ((hwc_prepare c ctx n displays).1.listStats 0).numAppLayers) ∧
    (¬ (1 ≤ prepareIterations n ∧ primaryPrepared ctx (displays 0)) →
      (hwc_prepare c ctx n displays).1.layerProp 0 = ctx.layerProp 0 ∧
      ((hwc_prepare c ctx n displays).1.listStats 0).numAppLayers = 0) ∧
    ((2 ≤ prepareIterations n ∧ externalPrepared ctx (displays 1)) →
      layerPropLen (hwc_prepare c ctx n displays).1 1 =
        ((hwc_prepare c ctx n displays).1.listStats 1).numAppLayers) ∧
    (¬ (2 ≤ prepareIterations n ∧ externalPrepared ctx (displays 1)) →
      (hwc_prepare c ctx n displays).1.layerProp 1 = ctx.layerProp 1 ∧
      ((hwc_prepare c ctx n displays).1.listStats 1).numAppLayers = 0) ∧
    (∀ m, m ≤ 2 ^ 31 → prepareIterations m = m) := by
  obtain ⟨hd, hl, hs0, hs1, hd0, hd1, ht⟩ := reset_facts ctx n displays
  have e0 : HWC_DISPLAY_PRIMARY = 0 := rfl
  have e1 : HWC_DISPLAY_EXTERNAL = 1 := rfl
  refine ⟨?_, ?_, ?_, ?_, prepareIterations_small⟩
  · rintro ⟨hk1, hp⟩
    obtain ⟨_, hk | hk | hk⟩ := hwc_prepare_ctx c ctx n displays
    · omega
    · have hp2 : primaryPrepared
          (log (log (reset ctx n displays).1 Event.configBegin) Event.hwc_prepare_primary)
          ((reset ctx n displays).2 0) := by
        rw [hd0, primaryPrepared_resetList ctx _ _ (by simp [hd])]
        exact hp
      have key := hwc_prepare_primary_prepared c _ _ hp2
      rw [e0] at key
      rw [hk.2, log_listStats, ← key]
      exact layerPropLen_congr _ _ _ (by rw [log_layerProp])
    · obtain ⟨f1, f2, f3⟩ := hwc_prepare_external_frame c
        (log (log (reset ctx n displays).1 Event.configBegin) Event.hwc_prepare_external)
        ((reset ctx n displays).2 1)
      have hp2 : primaryPrepared
          (log (hwc_prepare_external c
            (log (log (reset ctx n displays).1 Event.configBegin) Event.hwc_prepare_external)
            ((reset ctx n displays).2 1)).1 Event.hwc_prepare_primary)
          ((reset ctx n displays).2 0) := by
        rw [hd0, primaryPrepared_resetList ctx _ _ (by simp [f1, hd])]
        exact hp
      have key := hwc_prepare_primary_prepared c _ _ hp2
      rw [e0] at key
      rw [hk.2, log_listStats, ← key]
      exact layerPropLen_congr _ _ _ (by rw [log_layerProp])
  · intro h
    obtain ⟨a, b⟩ := hwc_prepare_primary_skipped c ctx n displays h
    exact ⟨a, by rw [b]⟩
  · rintro ⟨hk2, hp⟩
    obtain ⟨_, hk | hk | hk⟩ := hwc_prepare_ctx c ctx n displays
    · omega
    · omega
    · have hp2 : externalPrepared
          (log (log (reset ctx n displays).1 Event.configBegin) Event.hwc_prepare_external)
          ((reset ctx n displays).2 1) := by
        rw [hd1, externalPrepared_resetList ctx _ _ (by simp [hd])]
        exact hp
      have key := hwc_prepare_external_prepared c _ _ hp2
      rw [e1] at key
      obtain ⟨f1, f2, f3⟩ := hwc_prepare_primary_frame c
        (log (hwc_prepare_external c
          (log (log (reset ctx n displays).1 Event.configBegin) Event.hwc_prepare_external)
          ((reset ctx n displays).2 1)).1 Event.hwc_prepare_primary)
        ((reset ctx n displays).2 0)
      rw [e1] at f2 f3
      rw [hk.2, log_listStats, f2, log_listStats, ← key]
      exact layerPropLen_congr _ _ _ (by rw [log_layerProp, f3, log_layerProp])
  · intro h
    obtain ⟨a, b⟩ := hwc_prepare_external_skipped c ctx n displays h
    exact ⟨a, by rw [b]⟩

/-- Witness of `layerProp_length_after_prepare`: both sample displays are
prepared in one call. -/
theorem layerProp_length_after_prepare_witness :
    layerPropLen (hwc_prepare collabOk ctxSample 2 displaysSample).1 0 =
      ((hwc_prepare collabOk ctxSample 2 displaysSample).1.listStats 0).numAppLayers ∧
    layerPropLen (hwc_prepare collabOk ctxSample 2 displaysSample).1 1 =
      ((hwc_prepare collabOk ctxSample 2 displaysSample).1.listStats 1).numAppLayers :=
  ⟨(layerProp_length_after_prepare collabOk ctxSample 2 displaysSample).1
      ⟨by decide, by decide⟩,
   (layerProp_length_after_prepare collabOk ctxSample 2 displaysSample).2.2.1
      ⟨by decide, by decide⟩⟩

/-- C5 (counterexample): the primary display is prepared with two application
layers, then blanked, then `hwc_prepare` is called again: the second call
skips the display, clears `numAppLayers` to 0 and leaves the array of length 2
allocated by the first call. -/
theorem layerProp_length_stale :
    (ctxAfterBlank.dpyAttr HWC_DISPLAY_PRIMARY).isActive = false ∧
    layerPropLen (hwc_prepare collabOk ctxAfterBlank 1 displaysSample).1
      HWC_DISPLAY_PRIMARY = 2 ∧
    ((hwc_prepare collabOk ctxAfterBlank 1 displaysSample).1.listStats
      HWC_DISPLAY_PRIMARY).numAppLayers = 0 ∧
    layerPropLen (hwc_prepare collabOk ctxAfterBlank 1 displaysSample).1
      HWC_DISPLAY_PRIMARY ≠
      ((hwc_prepare collabOk ctxAfterBlank 1 displaysSample).1.listStats
        HWC_DISPLAY_PRIMARY).numAppLayers := by
  decide

/-! ## Skipped displays -/

theorem primaryPrepared_inactive (ctx : hwc_context_t)
    (list : Option hwc_display_contents_1_t)
    (h : (ctx.dpyAttr HWC_DISPLAY_PRIMARY).isActive = false) : ¬ primaryPrepared ctx list := by
  cases list with
  | none => simp [primaryPrepared]
  | some l => simp [primaryPrepared, h]

theorem externalPrepared_inactive (ctx : hwc_context_t)
    (list : Option hwc_display_contents_1_t)
    (h : (ctx.dpyAttr HWC_DISPLAY_EXTERNAL).isActive = false ∨
      (ctx.dpyAttr HWC_DISPLAY_EXTERNAL).connected = false) :
    ¬ externalPrepared ctx list := by
  cases list with
  | none => simp [externalPrepared]
  | some l => rcases h with h | h <;> simp [externalPrepared, h]

theorem filter_onDisplay_nil (d : Nat) (E : List Event)
    (h : ∀ e ∈ E, e.display ≠ some d) : E.filter (onDisplay d) = [] := by
  induction E with
  | nil => rfl
  | cons e rest ih =>
    have he : onDisplay d e = false := by
      simp [onDisplay, h e (List.mem_cons_self _ _)]
    rw [List.filter_cons_of_neg (by simp [he])]
    exact ih (fun x hx => h x (List.mem_cons_of_mem _ hx))

theorem hwc_prepare_dpyAttr (c : Collaborators) (ctx : hwc_context_t) (n : Nat)
    (displays : Displays) : (hwc_prepare c ctx n displays).1.dpyAttr = ctx.dpyAttr := by
  obtain ⟨hd, _⟩ := reset_facts ctx n displays
  obtain ⟨_, hk | hk | hk⟩ := hwc_prepare_ctx c ctx n displays
  · rw [hk.2]
    simp [hd]
  · rw [hk.2, log_dpyAttr, (hwc_prepare_primary_frame c _ _).1]
    simp [hd]
  · rw [hk.2, log_dpyAttr, (hwc_prepare_primary_frame c _ _).1, log_dpyAttr,
      (hwc_prepare_external_frame c _ _).1]
    simp [hd]

/-- The events that `hwc_prepare` adds to the trace: the two resets and the
opening of the transaction, the events of the external display, those of the
primary display, and the closing of the transaction. -/
theorem hwc_prepare_trace (c : Collaborators) (ctx : hwc_context_t) (n : Nat)
    (displays : Displays) :
    ∃ E P, (hwc_prepare c ctx n displays).1.trace =
        ctx.trace ++ [Event.VideoOverlay_reset, Event.FBUpdate_reset, Event.configBegin] ++
          E ++ P ++ [Event.configDone] ∧
      (∀ e ∈ E, e.display ≠ some 0) ∧ (∀ e ∈ P, e.display ≠ some 1) ∧
      (¬ externalPrepared ctx (displays 1) → ∀ e ∈ E, e.display = none) ∧
      (¬ primaryPrepared ctx (displays 0) → ∀ e ∈ P, e.display = none) := by
  obtain ⟨hd, hl, hs0, hs1, hd0, hd1, ht⟩ := reset_facts ctx n displays
  obtain ⟨_, hk | hk | hk⟩ := hwc_prepare_ctx c ctx n displays
  · refine ⟨[], [], ?_, by simp, by simp, by simp, by simp⟩
    rw [hk.2]
    simp [ht]
  · obtain ⟨P, hP, hP2⟩ := hwc_prepare_primary_trace c
      (log (log (reset ctx n displays).1 Event.configBegin) Event.hwc_prepare_primary)
      ((reset ctx n displays).2 0)
    refine ⟨[], Event.hwc_prepare_primary :: P, ?_, by simp, ?_, by simp, ?_⟩
    · rw [hk.2, log_trace, hP]
      simp [ht]
    · intro e he
      rcases List.mem_cons.mp he with h | h
      · subst h
        simp [Event.display]
      · rw [hP2 e h]
        decide
    · intro hnp e he
      have hnp2 : ¬ primaryPrepared
          (log (log (reset ctx n displays).1 Event.configBegin) Event.hwc_prepare_primary)
          ((reset ctx n displays).2 0) := by
        rw [hd0, primaryPrepared_resetList ctx _ _ (by simp [hd])]
        exact hnp
      rw [hwc_prepare_primary_not_prepared c _ _ hnp2] at hP
      have hnil : P = [] := List.self_eq_append_right.mp hP
      subst hnil
      rcases List.mem_cons.mp he with h | h
      · subst h
        rfl
      · exact absurd h (List.not_mem_nil _)
  · obtain ⟨E, hE, hE2⟩ := hwc_prepare_external_trace c
      (log (log (reset ctx n displays).1 Event.configBegin) Event.hwc_prepare_external)
      ((reset ctx n displays).2 1)
    obtain ⟨f1, _, _⟩ := hwc_prepare_external_frame c
      (log (log (reset ctx n displays).1 Event.configBegin) Event.hwc_prepare_external)
      ((reset ctx n displays).2 1)
    obtain ⟨P, hP, hP2⟩ := hwc_prepare_primary_trace c
      (log (hwc_prepare_external c
        (log (log (reset ctx n displays).1 Event.configBegin) Event.hwc_prepare_external)
        ((reset ctx n displays).2 1)).1 Event.hwc_prepare_primary)
      ((reset ctx n displays).2 0)
    refine ⟨Event.hwc_prepare_external :: E, Event.hwc_prepare_primary :: P,
      ?_, ?_, ?_, ?_, ?_⟩
    · rw [hk.2, log_trace, hP, log_trace, hE]
      simp [ht]
    · intro e he
      rcases List.mem_cons.mp he with h | h
      · subst h
        simp [Event.display]
      · rw [hE2 e h]
        decide
    · intro e he
      rcases List.mem_cons.mp he with h | h
      · subst h
        simp [Event.display]
      · rw [hP2 e h]
        decide
    · intro hnp e he
      have hnp2 : ¬ externalPrepared
          (log (log (reset ctx n displays).1 Event.configBegin) Event.hwc_prepare_external)
          ((reset ctx n displays).2 1) := by
        rw [hd1, externalPrepared_resetList ctx _ _ (by simp [hd])]
        exact hnp
      rw [hwc_prepare_external_not_prepared c _ _ hnp2] at hE
      have hnil : E = [] := List.self_eq_append_right.mp hE
      subst hnil
      rcases List.mem_cons.mp he with h | h
      · subst h
        rfl
      · exact absurd h (List.not_mem_nil _)
    · intro hnp e he
      have hnp2 : ¬ primaryPrepared
          (log (hwc_prepare_external c
            (log (log (reset ctx n displays).1 Event.configBegin) Event.hwc_prepare_external)
            ((reset ctx n displays).2 1)).1 Event.hwc_prepare_primary)
          ((reset ctx n displays).2 0) := by
        rw [hd0, primaryPrepared_resetList ctx _ _ (by simp [f1, hd])]
        exact hnp
      rw [hwc_prepare_primary_not_prepared c _ _ hnp2] at hP
      have hnil : P = [] := List.self_eq_append_right.mp hP
      subst hnil
      rcases List.mem_cons.mp he with h | h
      · subst h
        rfl
      · exact absurd h (List.not_mem_nil _)

theorem hwc_set_primary_fields (c : Collaborators) (ctx : hwc_context_t)
    (list : Option hwc_display_contents_1_t) :
    (hwc_set_primary c ctx list).1.listStats = ctx.listStats ∧
    (hwc_set_primary c ctx list).1.layerProp = ctx.layerProp := by
  unfold hwc_set_primary
  split
  · dsimp only
    split_ifs <;> simp
  · exact ⟨rfl, rfl⟩

theorem hwc_set_external_fields (c : Collaborators) (ctx : hwc_context_t)
    (list : Option hwc_display_contents_1_t) :
    (hwc_set_external c ctx list).1.dpyAttr = ctx.dpyAttr ∧
    (hwc_set_external c ctx list).1.listStats = ctx.listStats ∧
    (hwc_set_external c ctx list).1.layerProp = ctx.layerProp := by
  unfold hwc_set_external
  split
  · dsimp only
    split_ifs <;> simp
  · exact ⟨rfl, rfl, rfl⟩

theorem hwc_set_primary_skip (c : Collaborators) (ctx : hwc_context_t)
    (list : Option hwc_display_contents_1_t)
    (h : (ctx.dpyAttr HWC_DISPLAY_PRIMARY).isActive = false) :
    hwc_set_primary c ctx list = (ctx, 0) := by
  unfold hwc_set_primary
  split
  · simp [h]
  · rfl

theorem hwc_set_external_skip (c : Collaborators) (ctx : hwc_context_t)
    (list : Option hwc_display_contents_1_t)
    (h : (ctx.dpyAttr HWC_DISPLAY_EXTERNAL).isActive = false ∨
      (ctx.dpyAttr HWC_DISPLAY_EXTERNAL).connected = false) :
    hwc_set_external c ctx list = (ctx, 0) := by
  unfold hwc_set_external
  split
  · rcases h with h | h <;> simp [h]
  · rfl

/-- The function `hwc_set` changes nothing in the context but the trace. -/
theorem hwc_set_fields (c : Collaborators) (ctx : hwc_context_t) (n : Nat)
    (displays : Displays) :
    (hwc_set c ctx n displays).1.dpyAttr = ctx.dpyAttr ∧
    (hwc_set c ctx n displays).1.listStats = ctx.listStats ∧
    (hwc_set c ctx n displays).1.layerProp = ctx.layerProp := by
  induction n with
  | zero => rw [hwc_set_zero]; exact ⟨rfl, rfl, rfl⟩
  | succ n ih =>
    obtain ⟨i1, i2, i3⟩ := ih
    rw [hwc_set_succ]
    unfold setBody
    dsimp only
    split_ifs
    · obtain ⟨a, b⟩ := hwc_set_primary_fields c
        (log (hwc_set c ctx n displays).1 Event.hwc_set_primary) (displays n)
      rw [hwc_set_primary_dpyAttr, a, b]
      exact ⟨i1, i2, i3⟩
    · obtain ⟨a, b, d⟩ := hwc_set_external_fields c
        (log (hwc_set c ctx n displays).1 Event.hwc_set_external) (displays n)
      rw [a, b, d]
      exact ⟨i1, i2, i3⟩
    · exact ⟨i1, i2, i3⟩

theorem filter_append_nil (d : Nat) (t E : List Event)
    (h : ∀ e ∈ E, e.display ≠ some d) :
    (t ++ E).filter (onDisplay d) = t.filter (onDisplay d) := by
  rw [List.filter_append, filter_onDisplay_nil d E h, List.append_nil]

/-- The function `hwc_set` makes no collaborator call for an inactive primary
display. -/
theorem hwc_set_filter_primary (c : Collaborators) (ctx : hwc_context_t) (n : Nat)
    (displays : Displays) (h : (ctx.dpyAttr HWC_DISPLAY_PRIMARY).isActive = false) :
    (hwc_set c ctx n displays).1.trace.filter (onDisplay 0) =
      ctx.trace.filter (onDisplay 0) := by
  induction n with
  | zero => rw [hwc_set_zero]
  | succ n ih =>
    have hd := (hwc_set_fields c ctx n displays).1
    rw [hwc_set_succ]
    unfold setBody
    dsimp only
    split_ifs
    · rw [hwc_set_primary_skip c _ _ (by rw [log_dpyAttr, hd]; exact h), log_trace,
        filter_append_nil 0 _ _ (by simp [Event.display]), ih]
    · obtain ⟨E, hE, hE2⟩ := hwc_set_external_trace c
        (log (hwc_set c ctx n displays).1 Event.hwc_set_external) (displays n)
      rw [hE, filter_append_nil 0 _ E (fun e he => by rw [hE2 e he]; decide), log_trace,
        filter_append_nil 0 _ _ (by simp [Event.display]), ih]
    · exact ih

/-- The function `hwc_set` makes no collaborator call for an inactive or
disconnected external display. -/
theorem hwc_set_filter_external (c : Collaborators) (ctx : hwc_context_t) (n : Nat)
    (displays : Displays)
    (h : (ctx.dpyAttr HWC_DISPLAY_EXTERNAL).isActive = false ∨
      (ctx.dpyAttr HWC_DISPLAY_EXTERNAL).connected = false) :
    (hwc_set c ctx n displays).1.trace.filter (onDisplay 1) =
      ctx.trace.filter (onDisplay 1) := by
  induction n with
  | zero => rw [hwc_set_zero]
  | succ n ih =>
    have hd := (hwc_set_fields c ctx n displays).1
    rw [hwc_set_succ]
    unfold setBody
    dsimp only
    split_ifs
    · obtain ⟨P, hP, hP2⟩ := hwc_set_primary_trace c
        (log (hwc_set c ctx n displays).1 Event.hwc_set_primary) (displays n)
      rw [hP, filter_append_nil 1 _ P (fun e he => by rw [hP2 e he]; decide), log_trace,
        filter_append_nil 1 _ _ (by simp [Event.display]), ih]
    · rw [hwc_set_external_skip c _ _ (by rw [log_dpyAttr, hd]; exact h), log_trace,
        filter_append_nil 1 _ _ (by simp [Event.display]), ih]
    · exact ih

theorem hwc_prepare_filter (c : Collaborators) (ctx : hwc_context_t) (n : Nat)
    (displays : Displays) :
    (¬ primaryPrepared ctx (displays 0) →
      (hwc_prepare c ctx n displays).1.trace.filter (onDisplay 0) =
        ctx.trace.filter (onDisplay 0)) ∧
    (¬ externalPrepared ctx (displays 1) →
      (hwc_prepare c ctx n displays).1.trace.filter (onDisplay 1) =
        ctx.trace.filter (onDisplay 1)) := by
  obtain ⟨E, P, ht, hE0, hP1, hEn, hPn⟩ := hwc_prepare_trace c ctx n displays
  constructor
  · intro hnp
    rw [ht, filter_append_nil 0 _ _ (by simp [Event.display]),
      filter_append_nil 0 _ P (fun e he => by rw [hPn hnp e he]; simp),
      filter_append_nil 0 _ E hE0,
      filter_append_nil 0 _ _ (by simp [Event.display])]
  · intro hnp
    rw [ht, filter_append_nil 1 _ _ (by simp [Event.display]),
      filter_append_nil 1 _ P hP1,
      filter_append_nil 1 _ E (fun e he => by rw [hEn hnp e he]; simp),
      filter_append_nil 1 _ _ (by simp [Event.display])]

/-- C8 (amended): for an inactive primary display, and for an inactive or
disconnected external display, `hwc_prepare` and `hwc_set` make no collaborator
call for that display and leave its `layerProp` array and the display
attributes as they were; `hwc_prepare` clears its statistics to
`numAppLayers = 0`, `yuvIndex = -1` and hands its layer list to `reset`, which
sets the hint of every non-target layer to `HWC_FRAMEBUFFER` when the list has
more than one layer; `hwc_set` changes neither its statistics nor the
attributes. -/
theorem skipped_display_untouched (c : Collaborators) (ctx : hwc_context_t) (n : Nat)
    (displays : Displays) :
    ((ctx.dpyAttr HWC_DISPLAY_PRIMARY).isActive = false →
      ((hwc_prepare c ctx n displays).1.trace.filter (onDisplay HWC_DISPLAY_PRIMARY) =
          ctx.trace.filter (onDisplay HWC_DISPLAY_PRIMARY) ∧
        (hwc_prepare c ctx n displays).1.layerProp HWC_DISPLAY_PRIMARY =
          ctx.layerProp HWC_DISPLAY_PRIMARY ∧
        (hwc_prepare c ctx n displays).1.dpyAttr = ctx.dpyAttr ∧
        (hwc_prepare c ctx n displays).1.listStats HWC_DISPLAY_PRIMARY =
          { numAppLayers := 0, yuvIndex := -1 } ∧
        (hwc_prepare c ctx n displays).2.1 HWC_DISPLAY_PRIMARY =
          resetList (displays HWC_DISPLAY_PRIMARY)) ∧
      ((hwc_set c ctx n displays).1.trace.filter (onDisplay HWC_DISPLAY_PRIMARY) =
          ctx.trace.filter (onDisplay HWC_DISPLAY_PRIMARY) ∧
        (hwc_set c ctx n displays).1.layerProp = ctx.layerProp ∧
        (hwc_set c ctx n displays).1.listStats = ctx.listStats ∧
        (hwc_set c ctx n displays).1.dpyAttr = ctx.dpyAttr)) ∧
    (((ctx.dpyAttr HWC_DISPLAY_EXTERNAL).isActive = false ∨
        (ctx.dpyAttr HWC_DISPLAY_EXTERNAL).connected = false) →
      ((hwc_prepare c ctx n displays).1.trace.filter (onDisplay HWC_DISPLAY_EXTERNAL) =
          ctx.trace.filter (onDisplay HWC_DISPLAY_EXTERNAL) ∧
        (hwc_prepare c ctx n displays).1.layerProp HWC_DISPLAY_EXTERNAL =
          ctx.layerProp HWC_DISPLAY_EXTERNAL ∧
        (hwc_prepare c ctx n displays).1.dpyAttr = ctx.dpyAttr ∧
        (hwc_prepare c ctx n displays).1.listStats HWC_DISPLAY_EXTERNAL =
          { numAppLayers := 0, yuvIndex := -1 } ∧
        (hwc_prepare c ctx n displays).2.1 HWC_DISPLAY_EXTERNAL =
          resetList (displays HWC_DISPLAY_EXTERNAL)) ∧
      ((hwc_set c ctx n displays).1.trace.filter (onDisplay HWC_DISPLAY_EXTERNAL) =
          ctx.trace.filter (onDisplay HWC_DISPLAY_EXTERNAL) ∧
        (hwc_set c ctx n displays).1.layerProp = ctx.layerProp ∧
        (hwc_set c ctx n displays).1.listStats = ctx.listStats ∧
        (hwc_set c ctx n displays).1.dpyAttr = ctx.dpyAttr)) := by
  obtain ⟨hd, hl, hs0, hs1, hd0, hd1, ht⟩ := reset_facts ctx n displays
  obtain ⟨hdisp, _⟩ := hwc_prepare_ctx c ctx n displays
  obtain ⟨s1, s2, s3⟩ := hwc_set_fields c ctx n displays
  constructor
  · intro h
    have hnp := primaryPrepared_inactive ctx (displays 0) h
    obtain ⟨a, b⟩ := hwc_prepare_primary_skipped c ctx n displays (fun hp => hnp hp.2)
    exact ⟨⟨(hwc_prepare_filter c ctx n displays).1 hnp, a, hwc_prepare_dpyAttr c ctx n displays,
      b, by rw [hdisp]; exact hd0⟩,
      ⟨hwc_set_filter_primary c ctx n displays h, s3, s2, s1⟩⟩
  · intro h
    have hnp := externalPrepared_inactive ctx (displays 1) h
    obtain ⟨a, b⟩ := hwc_prepare_external_skipped c ctx n displays (fun hp => hnp hp.2)
    exact ⟨⟨(hwc_prepare_filter c ctx n displays).2 hnp, a, hwc_prepare_dpyAttr c ctx n displays,
      b, by rw [hdisp]; exact hd1⟩,
      ⟨hwc_set_filter_external c ctx n displays h, s3, s2, s1⟩⟩

/-- Witness of `skipped_display_untouched`: the blanked sample context with
two displays. -/
theorem skipped_display_untouched_witness :
    (hwc_prepare collabOk ctxInactive 2 displaysSample).1.trace.filter
        (onDisplay HWC_DISPLAY_PRIMARY) =
      ctxInactive.trace.filter (onDisplay HWC_DISPLAY_PRIMARY) ∧
    (hwc_set collabOk ctxInactive 2 displaysSample).1.trace.filter
        (onDisplay HWC_DISPLAY_EXTERNAL) =
      ctxInactive.trace.filter (onDisplay HWC_DISPLAY_EXTERNAL) :=
  ⟨((skipped_display_untouched collabOk ctxInactive 2 displaysSample).1 rfl).1.1,
   ((skipped_display_untouched collabOk ctxInactive 2 displaysSample).2 (Or.inl rfl)).2.1⟩

/-- C8 (counterexample): the primary display is inactive, yet `hwc_prepare`
changes the composition hint of the first layer of its list from
`HWC_OVERLAY` to `HWC_FRAMEBUFFER`. -/
theorem skipped_display_hint_reset :
    (ctxInactive.dpyAttr HWC_DISPLAY_PRIMARY).isActive = false ∧
    (displaysSample HWC_DISPLAY_PRIMARY).map
        (fun l => l.hwLayers.map (fun x => x.compositionType)) =
      some [HWC_OVERLAY, HWC_FRAMEBUFFER, HWC_FRAMEBUFFER_TARGET] ∧
    ((hwc_prepare collabOk ctxInactive 1 displaysSample).2.1 HWC_DISPLAY_PRIMARY).map
        (fun l => l.hwLayers.map (fun x => x.compositionType)) =
      some [HWC_FRAMEBUFFER, HWC_FRAMEBUFFER, HWC_FRAMEBUFFER_TARGET] := by
  decide

end qhwc
